import Mathlib

/-!
Shallow embedding of the dataset-generation core of the
`query-package-documentation` repository
(`src/generative_ai/dataset_generation/`), together with theorems settling
the claims about it.

Python's runtime services (the import machinery, `inspect`, the numpydoc
docstring parser) are modelled as explicit environment records of oracles;
everything the repository's own code computes is translated function by
function.  Machine floats of the split proportions are modelled as rationals;
the Mersenne-Twister stream behind `random` is modelled as an abstract stream
of rationals in `[0, 1)` indexed by draw position, consumed left to right.
-/

namespace QPD

/-- Python exception classes that the embedded code can raise. -/
inductive PyError where
  | validationError
  | valueError (message : String)
  | importError
  | attributeError
deriving Repr, DecidableEq

/-- An opaque Python runtime value, as stored in `typing.Any` fields
(parameter defaults, annotations, enum values).  `empty` is the
`inspect._empty` sentinel, distinguishable from `noneV` (Python `None`). -/
inductive PyValue where
  | empty
  | noneV
  | str (s : String)
  | int (n : Int)
  | obj (shown : String)
deriving Repr, DecidableEq

/-- Python `str(value)`, as used when a value is interpolated into an f-string. -/
def pyStr : PyValue → String
  | .empty => "<class 'inspect._empty'>"
  | .noneV => "None"
  | .str s => s
  | .int n => toString n
  | .obj shown => shown

/-- Whether `value is inspect._empty` holds. -/
def PyValue.isEmptySentinel : PyValue → Bool
  | .empty => true
  | _ => false

/-- Truthiness of a Python `str | None` value: `None` and `""` are falsy. -/
def strTruthy : Option String → Bool
  | none => false
  | some s => !(s == "")

/-- Truthiness of a Python `list[...] | None` value: `None` and `[]` are falsy. -/
def optListTruthy {α : Type} : Option (List α) → Bool
  | none => false
  | some l => !l.isEmpty

/-- Python `text.removeprefix(pre)`: drops `pre` when `text` starts with it,
otherwise returns `text` unchanged (computed over the character lists). -/
def removePfx (text pre : String) : String :=
  if pre.toList.isPrefixOf text.toList then String.mk (text.toList.drop pre.toList.length)
  else text

/-- Python `pat in text` on strings: substring containment. -/
def strContains (text pat : String) : Bool :=
  text.toList.tails.any (fun t => pat.toList.isPrefixOf t)

/-- Splitter behind `pySplit`: cuts a character list at every `'.'`.
Always returns at least one (possibly empty) piece, like Python `str.split`. -/
def splitDotsAux : List Char → List (List Char)
  | [] => [[]]
  | c :: rest =>
    match splitDotsAux rest with
    | [] => [[]]
    | h :: t => if c = '.' then [] :: h :: t else (c :: h) :: t

/-- Python `text.split(".")`. -/
def pySplit (text : String) : List String :=
  (splitDotsAux text.toList).map (fun piece => String.mk piece)

/-- Python `list.insert(-1, x)`: insert `x` just before the last element
(for an empty list, `x` becomes the only element). -/
def pyInsertBeforeLast {α : Type} (l : List α) (x : α) : List α :=
  l.take (l.length - 1) ++ x :: l.drop (l.length - 1)

theorem splitDotsAux_ne_nil (cs : List Char) : splitDotsAux cs ≠ [] := by
  cases cs with
  | nil => simp [splitDotsAux]
  | cons c rest =>
    simp only [splitDotsAux]
    cases splitDotsAux rest with
    | nil => simp
    | cons h t =>
      by_cases hc : c = '.' <;> simp [hc]

theorem pySplit_ne_nil (text : String) : pySplit text ≠ [] := by
  simp [pySplit, splitDotsAux_ne_nil]

/-! ## Data model (`utils_generation.py`) -/

/-- `SplitName`: supported split names. -/
inductive SplitName where
  | TRAIN
  | VALIDATION
  | TEST
deriving Repr, DecidableEq

/-- The `.value` string of a `SplitName` member. -/
def SplitName.value : SplitName → String
  | .TRAIN => "train"
  | .VALIDATION => "validation"
  | .TEST => "test"

/-- `SplitProportions`: proportions of train, validation and test subsets.
The float fields are modelled as rationals. -/
structure SplitProportions where
  train_proportion : ℚ
  validation_proportion : ℚ
  test_proportion : ℚ
deriving Repr, DecidableEq

/-- The pydantic validation of `SplitProportions`: each field must lie
strictly inside `(0, 1)` and the three must sum to exactly 1. -/
def validate_proportions (p : SplitProportions) : Except PyError SplitProportions :=
  if 0 < p.train_proportion ∧ p.train_proportion < 1
      ∧ 0 < p.validation_proportion ∧ p.validation_proportion < 1
      ∧ 0 < p.test_proportion ∧ p.test_proportion < 1 then
    if p.train_proportion + p.validation_proportion + p.test_proportion = 1 then
      .ok p
    else
      .error (.valueError "Proportions must sum up to 1.")
  else
    .error .validationError

/-- `Document`: a tuning document (context, question, answer, split). -/
structure Document where
  context : String
  question : String
  answer : String
  split : SplitName
deriving Repr, DecidableEq

/-- `Dataset`: retrieval chunks plus tuning documents of one record. -/
structure Dataset where
  retrieval_chunks : List String
  tuning_documents : List Document
deriving Repr, DecidableEq

/-- A question/answer pair with its split allocation, as produced by
`allocate_tuning_pairs` (`tuple[str, str, SplitName]`). -/
abbrev TuningTriplet := String × String × SplitName

/-- Pydantic construction of a `Dataset` from keyword arguments.  A keyword
that names no declared field is ignored (the default `extra="ignore"`), and a
required field left unset fails validation.  Every `Dataset(...)` call in
`step_2_generation.py` passes `retrieval_chunks=...` and `tuning_pairs=...`;
`tuning_pairs` names no field of `Dataset` (the fields are `retrieval_chunks`
and `tuning_documents`), so those calls provide `none` for
`tuning_documents`. -/
def Dataset.validate (retrieval_chunks : Option (List String))
    (tuning_documents : Option (List Document)) : Except PyError Dataset :=
  match retrieval_chunks, tuning_documents with
  | some rc, some td => .ok { retrieval_chunks := rc, tuning_documents := td }
  | _, _ => .error .validationError

/-- The exact constructor call every generator makes:
`Dataset(retrieval_chunks=..., tuning_pairs=...)`.  `tuning_pairs` names no
field of `Dataset`, so pydantic drops it and the required field
`tuning_documents` stays unset: the call always raises a validation error
(`Dataset.validate` receives `none` for `tuning_documents`). -/
def Dataset.init_with_tuning_pairs (retrieval_chunks : List String)
    (_tuning_pairs : List TuningTriplet) : Except PyError Dataset :=
  Dataset.validate (some retrieval_chunks) none

/-- `JSONDocument`: a tuning document in JSON form. -/
structure JSONDocument where
  context : String
  question : String
  answer : String
  split : SplitName
deriving Repr, DecidableEq

/-- `JSONDataset`: the serialization target. -/
structure JSONDataset where
  retrieval_documents : List String
  tuning_documents : List JSONDocument
deriving Repr, DecidableEq

/-! ## Pseudo-random stream and split allocation (`step_2_generation.py`
lines 22-63) -/

/-- The state of Python's global `random` stream: an abstract stream of
`random.random()` draws in `[0, 1)` and the position of the next draw.
`random.seed(a=0)` at module import fixes one such state once, globally, so
every run of the module starts from the same state. -/
structure RandomState where
  pos : Nat
  stream : Nat → ℚ

/-- One weighted choice among the three split names, as
`random.choices` computes it: `bisect_right` of `u * total` over the
cumulative weights `[train, train + validation, total]`. -/
def weighted_split_choice (p : SplitProportions) (u : ℚ) : SplitName :=
  let total := p.train_proportion + p.validation_proportion + p.test_proportion
  let x := u * total
  if x < p.train_proportion then .TRAIN
  else if x < p.train_proportion + p.validation_proportion then .VALIDATION
  else .TEST

/-- `random.choices([TRAIN, VALIDATION, TEST], weights=..., k=k)`: `k`
independent draws from the stream, consumed left to right. -/
def random_choices (p : SplitProportions) (k : Nat) (s : RandomState) :
    List SplitName × RandomState :=
  ((List.range k).map (fun i => weighted_split_choice p (s.stream (s.pos + i))),
    { pos := s.pos + k, stream := s.stream })

/-- `DEFAULT_SPLIT_PROPORTIONS = SplitProportions(0.6, 0.2, 0.2)`. -/
def DEFAULT_SPLIT_PROPORTIONS : SplitProportions :=
  { train_proportion := 0.6, validation_proportion := 0.2, test_proportion := 0.2 }

/-- `allocate_tuning_pairs`: draw one split per pair with `random.choices`
and zip the draws back onto the pairs in order.  The global random state is
made explicit: the function consumes the state and returns the advanced
state. -/
def allocate_tuning_pairs (tuning_pairs : List (String × String))
    (split_proportions : SplitProportions) (s : RandomState) :
    List TuningTriplet × RandomState :=
  let drawn := random_choices split_proportions tuning_pairs.length s
  ((tuning_pairs.zip drawn.1).map (fun qa => (qa.1.1, qa.1.2, qa.2)), drawn.2)

/-! ## `enumerate_array_elements` (`step_2_generation.py` lines 66-98) -/

/-- An element of the dynamically typed `array` argument of
`enumerate_array_elements`: either a string, or an object carrying named
attributes (each already rendered to the string that `getattr` returns). -/
inductive ArrayElement where
  | str (s : String)
  | obj (attrs : List (String × String))
deriving Repr, DecidableEq

/-- The element-extraction loop of `enumerate_array_elements`: strings pass
through; for a non-string the named attribute is fetched
(`AttributeError` when missing), and a missing `attribute` raises
`ValueError`. -/
def extract_elements (attr : Option String) :
    List ArrayElement → Except PyError (List String)
  | [] => .ok []
  | .str s :: rest => (extract_elements attr rest).map (fun es => s :: es)
  | .obj attrs :: rest =>
    match attr with
    | some a =>
      match attrs.lookup a with
      | some v => (extract_elements attr rest).map (fun es => v :: es)
      | none => .error .attributeError
    | none => .error (.valueError "attribute must be non-null if array elements are not string")

/-- The join line of `enumerate_array_elements`:
`" ".flatten(f"{counter + 1}. {element}" for counter, element in enumerate(elements))`. -/
def format_enumeration (elements : List String) : String :=
  String.intercalate " "
    (elements.enum.map (fun p =>
      let counter := p.1 + 1
      let element := p.2
      s!"{counter}. {element}"))

/-- `enumerate_array_elements(array, attribute=None)`. -/
def enumerate_array_elements (array : List ArrayElement)
    (attr : Option String) : Except PyError String :=
  (extract_elements attr array).map format_enumeration

/-! ## Walker records (`utils_generation.py`) -/

/-- `PackageDetails`: details of a python package. -/
structure PackageDetails where
  package_name : String
  package_qualified_name : String
  package_hierarchy : List String
  parent_package_name : Option String
  children_sub_packages_names : List String
  children_modules_names : List String
  package_summary : Option String
  package_all_exports : Option (List String)
deriving Repr, DecidableEq

/-- `ModuleMemberDetails`: a member stub (name plus opaque handle to the
live object; handles are modelled as natural numbers). -/
structure ModuleMemberDetails where
  member_name : String
  member_object : Nat
deriving Repr, DecidableEq

/-- `ModuleDetails`: details of a python module. -/
structure ModuleDetails where
  module_name : String
  module_qualified_name : String
  module_hierarchy : List String
  package_name : String
  module_members : List ModuleMemberDetails
  module_summary : Option String
  module_all_exports : Option (List String)
deriving Repr, DecidableEq

/-- `EnumMemberDetails`: one enum member (name, value). -/
structure EnumMemberDetails where
  enum_member_name : String
  enum_member_value : PyValue
deriving Repr, DecidableEq

/-- The computed field `EnumMemberDetails.enum_member`:
`f"{name} (corresponding to '{value}')"`. -/
def EnumMemberDetails.enum_member (em : EnumMemberDetails) : String :=
  let n := em.enum_member_name
  let v := pyStr em.enum_member_value
  s!"{n} (corresponding to '{v}')"

/-- `EnumDetails` (without the discriminator tag, carried by the sum type). -/
structure EnumDetails where
  enum_members : List EnumMemberDetails
deriving Repr, DecidableEq

/-- `ParameterDetails`: one argument of a class or function.  The source
field `parameter_annotation` is named `parameter_annot` here. -/
structure ParameterDetails where
  parameter_name : String
  parameter_default : PyValue
  parameter_annot : PyValue
  parameter_kind : String
  parameter_summary : Option String
deriving Repr, DecidableEq

/-- The computed field `ParameterDetails.parameter_details`:
`f"'{name}', of type '{kind}'"`. -/
def ParameterDetails.parameter_details (p : ParameterDetails) : String :=
  let n := p.parameter_name
  let k := p.parameter_kind
  s!"'{n}', of type '{k}'"

/-- `MethodDetails`: one method of a class. -/
structure MethodDetails where
  method_name : String
  method_parameters : List String
  method_summary : Option String
deriving Repr, DecidableEq

/-- `AttributeDetails`: one attribute of a class. -/
structure AttributeDetails where
  attribute_name : String
deriving Repr, DecidableEq

/-- `ClassDetails` (without the discriminator tag). -/
structure ClassDetails where
  class_parameters : List ParameterDetails
  class_methods : List MethodDetails
  class_attributes : List AttributeDetails
  class_summary : Option String
  class_notes : Option String
deriving Repr, DecidableEq

/-- `ReturnDetails`.  The source field `returns_annotation` is named
`returns_annot` here. -/
structure ReturnDetails where
  returns_annot : PyValue
  returns_summary : Option String
deriving Repr, DecidableEq

/-- `RaiseDetails`: one documented exception. -/
structure RaiseDetails where
  raises_type : Option String
  raises_summary : Option String
deriving Repr, DecidableEq

/-- Python `str | None` interpolated into an f-string: `None` prints as
`None`. -/
def optShow (o : Option String) : String :=
  match o with
  | none => "None"
  | some s => s

/-- The computed field `RaiseDetails.raises_details`:
`f"'{type}' ('{summary}')"`. -/
def RaiseDetails.raises_details (r : RaiseDetails) : String :=
  let t := optShow r.raises_type
  let s := optShow r.raises_summary
  s!"'{t}' ('{s}')"

/-- `WarnDetails`: one documented warning. -/
structure WarnDetails where
  warns_type : Option String
  warns_summary : Option String
deriving Repr, DecidableEq

/-- The computed field `WarnDetails.warns_details`:
`f"'{type}' ('{summary}')"`. -/
def WarnDetails.warns_details (w : WarnDetails) : String :=
  let t := optShow w.warns_type
  let s := optShow w.warns_summary
  s!"'{t}' ('{s}')"

/-- `FunctionDetails` (without the discriminator tag). -/
structure FunctionDetails where
  function_parameters : List ParameterDetails
  function_returns : ReturnDetails
  function_summary : Option String
  function_raises : Option (List RaiseDetails)
  function_warns : Option (List WarnDetails)
  function_notes : Option String
  function_references : Option String
  function_examples : Option String
deriving Repr, DecidableEq

/-- The tagged union `EnumDetails | ClassDetails | FunctionDetails`,
discriminated in the source by the `member_type` field. -/
inductive MemberTypeDetails where
  | enumD (d : EnumDetails)
  | classD (d : ClassDetails)
  | functionD (d : FunctionDetails)
deriving Repr, DecidableEq

/-- The `member_type.value` string of a tagged detail record. -/
def MemberTypeDetails.type_value : MemberTypeDetails → String
  | .enumD _ => "enum"
  | .classD _ => "class"
  | .functionD _ => "function"

/-- `MemberDetails`: details of a member of a module. -/
structure MemberDetails where
  member_name : String
  member_qualified_name : String
  member_hierarchy : List String
  member_module : String
  member_docstring : String
  member_type_details : Option MemberTypeDetails
deriving Repr, DecidableEq

/-! ## Object graph walker (`step_1_generation.py`) -/

/-- The outcome of `importlib.util.find_spec(name)`: a spec is found, no
spec exists (`None` is returned), or the lookup itself raises an
`ImportError` (for a dotted name this happens when importing the parent
package fails). -/
inductive FindSpecResult where
  | found
  | missing
  | raisesImportError
deriving Repr, DecidableEq

/-- What importing one package yields: its `pkgutil.walk_packages` output
(pairs of yielded qualified name and `ispkg`), its `__doc__`, and its
`__all__` (absent attribute modelled as `none`). -/
structure PackageRuntime where
  walk : List (String × Bool)
  summary : Option String
  all_exports : Option (List String)
deriving Repr, DecidableEq

/-- The Python import machinery, as an oracle: `find_spec` outcomes and
`importlib.import_module` outcomes (`none` means the import raises
`ImportError`). -/
structure ImportEnv where
  find_spec : String → FindSpecResult
  import_module : String → Option PackageRuntime

/-- `import_package(package_name)`: resolve a spec and build the module.
When `find_spec` returns `None` the function logs and raises
`ValueError(f"{package_name=} is not found")`; an `ImportError` from the
lookup propagates.  The unexecuted loader module is represented by its
name (only `__name__` and `__path__` of it are used downstream). -/
def import_package (env : ImportEnv) (package_name : String) : Except PyError String :=
  match env.find_spec package_name with
  | .raisesImportError => .error .importError
  | .missing => .error (.valueError package_name)
  | .found => .ok package_name

/-- One `PackageDetails` record as the walk body builds it from the yields
of `pkgutil.walk_packages`: children containing `"tests"` anywhere in their
qualified name are dropped, children whose prefix-stripped name still
contains a separator are dropped, the rest are classified by `ispkg`, and
the child-name lists are stored prefix-stripped. -/
def build_package_details (current_package_name : String)
    (parent_package_name : Option String) (runtime : PackageRuntime) :
    PackageDetails × List String :=
  let current_package_hierarchy := pySplit current_package_name
  let pre := current_package_name ++ "."
  let kept := runtime.walk.filter (fun y =>
    !(strContains y.1 "tests") && !(strContains (removePfx y.1 pre) "."))
  let current_package_sub_packages := (kept.filter (fun y => y.2)).map (fun y => y.1)
  let current_package_modules := (kept.filter (fun y => !y.2)).map (fun y => y.1)
  ({ package_name := current_package_hierarchy.getLastD ""
    , package_qualified_name := current_package_name
    , package_hierarchy := current_package_hierarchy
    , parent_package_name := parent_package_name
    , children_sub_packages_names :=
        current_package_sub_packages.map (fun sub_package => removePfx sub_package pre)
    , children_modules_names :=
        current_package_modules.map (fun module => removePfx module pre)
    , package_summary := runtime.summary
    , package_all_exports := runtime.all_exports }
  , current_package_sub_packages)

/-- The `while sub_packages_stack` loop of `get_all_package_contents`.  The
stack's top is the head of the list (Python pops and appends at the right
end; discovered sub-packages are pushed in order, so they are prepended here
in reverse).  Only `ImportError` is caught and skipped; any other exception
(in particular the `ValueError` of `import_package`) aborts the walk.
`fuel` bounds the number of iterations; `none` means it ran out. -/
def walk_loop (env : ImportEnv) :
    Nat → List (String × Option String) → List PackageDetails →
    Option (Except PyError (List PackageDetails))
  | _, [], package_contents => some (.ok package_contents)
  | 0, _ :: _, _ => none
  | Nat.succ fuel, (current_package_name, parent_package_name) :: rest, package_contents =>
    match import_package env current_package_name with
    | .error .importError => walk_loop env fuel rest package_contents
    | .error e => some (.error e)
    | .ok _loader =>
      match env.import_module current_package_name with
      | none => walk_loop env fuel rest package_contents
      | some runtime =>
        let built := build_package_details current_package_name parent_package_name runtime
        walk_loop env fuel
          ((built.2.reverse.map (fun sub_package_name =>
            (sub_package_name, some current_package_name))) ++ rest)
          (package_contents ++ [built.1])

/-- `get_all_package_contents(package_name)`. -/
def get_all_package_contents (env : ImportEnv) (fuel : Nat) (package_name : String) :
    Option (Except PyError (List PackageDetails)) :=
  walk_loop env fuel [(package_name, none)] []

/-! ## Signature and docstring merging (`step_1_generation.py` lines 182-270) -/

/-- One parameter of an `inspect.Signature`: name, default, annotation
(`.empty` when absent) and `kind.description`.  The source attribute
`annotation` is named `annot` here. -/
structure SigParameter where
  name : String
  default : PyValue
  annot : PyValue
  kind : String
deriving Repr, DecidableEq

/-- An `inspect.Signature`: ordered unique-named parameters and the return
annotation (`.empty` when absent). -/
structure Signature where
  parameters : List SigParameter
  return_annot : PyValue
deriving Repr, DecidableEq

/-- One entry of a numpydoc `Parameters`/`Returns`/`Raises`/`Warns` section:
`name`, `type` (a string, possibly empty) and `desc` (lines of text). -/
structure DocParameter where
  name : String
  type : String
  desc : List String
deriving Repr, DecidableEq

/-- The structured output of `NumpyDocString`, consumed as an opaque
section lookup.  Free-text sections are modelled as lists of lines. -/
structure ParsedDoc where
  Parameters : List DocParameter
  Returns : List DocParameter
  Raises : List DocParameter
  Warns : List DocParameter
  Summary : List String
  Extended_Summary : List String
  See_Also : List String
  Notes : List String
  References : List String
  Examples : List String
deriving Repr, DecidableEq

/-- Lookup of one name in the `parameter_docstring` dict built by a
comprehension over the docstring's `Parameters`: for a duplicated name the
dict keeps the last entry. -/
def docLookup (entries : List DocParameter) (name : String) : Option DocParameter :=
  entries.reverse.find? (fun entry => entry.name == name)

/-- The merge `docstring.get(name, {}).get("parameter_annotation", None)
or signature_annotation`: because `or` tests truthiness, an empty-string
docstring type falls back to the signature annotation exactly like an
absent entry. -/
def merged_annot (docEntry : Option DocParameter) (signature_annot : PyValue) : PyValue :=
  match docEntry with
  | some entry => if entry.type == "" then signature_annot else .str entry.type
  | none => signature_annot

/-- `get_all_parameters_details(signature, docstring)`. -/
def get_all_parameters_details (signature : Signature) (docstring : ParsedDoc) :
    List ParameterDetails :=
  signature.parameters.map (fun parameter =>
    let fromDoc := docLookup docstring.Parameters parameter.name
    { parameter_name := parameter.name
    , parameter_default := parameter.default
    , parameter_annot := merged_annot fromDoc parameter.annot
    , parameter_kind := parameter.kind
    , parameter_summary := fromDoc.map (fun entry => String.intercalate " " entry.desc) })

/-- `get_all_returns_details(signature, docstring)`: with no documented
`Returns` section only the signature annotation is kept; otherwise the
first entry is merged with the same truthiness-based `or`. -/
def get_all_returns_details (signature : Signature) (docstring : ParsedDoc) :
    ReturnDetails :=
  match docstring.Returns with
  | [] => { returns_annot := signature.return_annot, returns_summary := none }
  | returns :: _ =>
    { returns_annot := merged_annot (some returns) signature.return_annot
    , returns_summary := some (String.intercalate " " returns.desc) }

/-! ## Module contents and member classification (`step_1_generation.py`
lines 146-373) -/

/-- What importing one module yields for `get_all_module_contents`: the
`inspect.getmembers` enumeration (name/handle pairs, already sorted by
name as `getmembers` sorts them), `inspect.getdoc`, and `__all__`. -/
structure ModuleRuntime where
  members : List (String × Nat)
  getdoc : Option String
  all_exports : Option (List String)
deriving Repr, DecidableEq

/-- Classification of a live object by the dispatch chain of
`get_all_member_details`: `isinstance(obj, enum.EnumType)`, then
`inspect.isclass`, then `callable`, else unclassified. -/
inductive ObjKind where
  | enumType
  | classType
  | callableType
  | other
deriving Repr, DecidableEq

/-- A bound method found by `inspect.getmembers(cls, inspect.ismethod)`:
its name, its signature's parameter names, and its `inspect.getdoc`. -/
structure MethodIntro where
  name : String
  parameters : List String
  getdoc : Option String
deriving Repr, DecidableEq

/-- The reflection services used on modules and members, as oracles over
opaque object handles: module import, `inspect.getmodule` (the defining
module of an object, by qualified name), `inspect.getdoc`, the numpydoc
parser, the classification chain, enum member iteration,
`inspect.signature` (`none` when it raises), method and attribute
enumeration. -/
structure IntrospectEnv where
  import_module : String → Option ModuleRuntime
  getmodule : Nat → Option String
  getdoc : Nat → Option String
  parse : String → ParsedDoc
  classify : Nat → ObjKind
  enum_members : Nat → List (String × PyValue)
  signature : Nat → Option Signature
  methods : Nat → List MethodIntro
  attributes : Nat → List String

/-- `get_all_module_contents(module_name)`: import the module (an
`ImportError` propagates to the caller) and keep exactly the members whose
defining module is the imported module itself
(`inspect.getmodule(member) == module`). -/
def get_all_module_contents (env : IntrospectEnv) (module_name : String) :
    Except PyError ModuleDetails :=
  let module_hierarchy := pySplit module_name
  match env.import_module module_name with
  | none => .error .importError
  | some runtime =>
    let module_contents := runtime.members.filter (fun member =>
      env.getmodule member.2 == some module_name)
    .ok
      { module_name := module_hierarchy.getLastD ""
      , module_qualified_name := module_name
      , module_hierarchy := module_hierarchy
      , package_name := String.intercalate "." module_hierarchy.dropLast
      , module_members := module_contents.map (fun member =>
          { member_name := member.1, member_object := member.2 })
      , module_summary := runtime.getdoc
      , module_all_exports := runtime.all_exports }

/-- `get_all_member_details(module_name, member_name, member_object)`:
generic facts plus the kind-specific tagged detail.  `inspect.signature`
raising on a class or callable is modelled as a `ValueError` (the callers
catch `TypeError`/`ValueError` alike and skip the member). -/
def get_all_member_details (env : IntrospectEnv) (module_name member_name : String)
    (member_object : Nat) : Except PyError MemberDetails :=
  let member_hierarchy := pySplit module_name ++ [member_name]
  let member_docstring := (env.getdoc member_object).getD ""
  let parsed_docstring := env.parse member_docstring
  let base : Option MemberTypeDetails → MemberDetails := fun details =>
    { member_name := member_name
    , member_qualified_name := String.intercalate "." member_hierarchy
    , member_hierarchy := member_hierarchy
    , member_module := (member_hierarchy.get? (member_hierarchy.length - 2)).getD ""
    , member_docstring := member_docstring
    , member_type_details := details }
  match env.classify member_object with
  | .enumType =>
    .ok (base (some (.enumD
      { enum_members := (env.enum_members member_object).map (fun enum_member =>
          { enum_member_name := enum_member.1, enum_member_value := enum_member.2 }) })))
  | .classType =>
    match env.signature member_object with
    | none => .error (.valueError "signature")
    | some signature =>
      .ok (base (some (.classD
        { class_parameters := get_all_parameters_details signature parsed_docstring
        , class_methods := ((env.methods member_object).filter (fun method =>
            !(method.name.startsWith "_"))).map (fun method =>
              { method_name := method.name
              , method_parameters := method.parameters
              , method_summary := method.getdoc })
        , class_attributes := ((env.attributes member_object).filter (fun attr =>
            !(attr.startsWith "_"))).map (fun attr =>
              { attribute_name := attr })
        , class_summary := some (String.intercalate " "
            (parsed_docstring.Summary ++ parsed_docstring.Extended_Summary))
        , class_notes := some (String.intercalate " "
            (parsed_docstring.See_Also ++ parsed_docstring.Notes)) })))
  | .callableType =>
    match env.signature member_object with
    | none => .error (.valueError "signature")
    | some signature =>
      .ok (base (some (.functionD
        { function_parameters := get_all_parameters_details signature parsed_docstring
        , function_returns := get_all_returns_details signature parsed_docstring
        , function_summary := some (String.intercalate " "
            (parsed_docstring.Summary ++ parsed_docstring.Extended_Summary))
        , function_raises := some (parsed_docstring.Raises.map (fun raises =>
            { raises_type := some raises.type
            , raises_summary := some (String.intercalate " " raises.desc) }))
        , function_warns := some (parsed_docstring.Warns.map (fun warns =>
            { warns_type := some warns.type
            , warns_summary := some (String.intercalate " " warns.desc) }))
        , function_notes := some (String.join
            (parsed_docstring.See_Also ++ parsed_docstring.Notes))
        , function_references := some (String.join parsed_docstring.References)
        , function_examples := some (String.join parsed_docstring.Examples) })))
  | .other => .ok (base none)

/-! ## Bridging `enumerate_array_elements` call sites

The generators below call `format_enumeration` on the extracted element
strings directly; the lemmas here show that this is exactly what
`enumerate_array_elements` returns at each call-site shape (a list of
strings, or a list of objects carrying the requested attribute), so no
call in the generators can raise. -/

theorem extract_elements_map_str (attr : Option String) (l : List String) :
    extract_elements attr (l.map ArrayElement.str) = .ok l := by
  induction l with
  | nil => rfl
  | cons h t ih => simp [extract_elements, ih, Except.map]

theorem enumerate_array_elements_strs (attr : Option String) (l : List String) :
    enumerate_array_elements (l.map ArrayElement.str) attr = .ok (format_enumeration l) := by
  simp [enumerate_array_elements, extract_elements_map_str, Except.map]

theorem extract_elements_map_obj {α : Type} (a : String) (l : List α)
    (g : α → List (String × String)) (f : α → String)
    (hf : ∀ x, (g x).lookup a = some (f x)) :
    extract_elements (some a) (l.map (fun x => ArrayElement.obj (g x))) = .ok (l.map f) := by
  induction l with
  | nil => rfl
  | cons h t ih => simp [extract_elements, hf, ih, Except.map]

theorem enumerate_array_elements_objs {α : Type} (a : String) (l : List α)
    (g : α → List (String × String)) (f : α → String)
    (hf : ∀ x, (g x).lookup a = some (f x)) :
    enumerate_array_elements (l.map (fun x => ArrayElement.obj (g x))) (some a)
      = .ok (format_enumeration (l.map f)) := by
  simp [enumerate_array_elements, extract_elements_map_obj a l g f hf, Except.map]

/-- The attributes of a `ModuleMemberDetails` pydantic object used by
`enumerate_array_elements` calls. -/
def moduleMemberElem (m : ModuleMemberDetails) : ArrayElement :=
  .obj [("member_name", m.member_name)]

/-- The attributes of an `EnumMemberDetails` pydantic object used by
`enumerate_array_elements` calls (the raw `enum_member_value` is rendered by
the f-string of the join). -/
def enumMemberElem (em : EnumMemberDetails) : ArrayElement :=
  .obj [("enum_member", em.enum_member), ("enum_member_name", em.enum_member_name),
    ("enum_member_value", pyStr em.enum_member_value)]

/-- The attribute of a `ParameterDetails` pydantic object used by
`enumerate_array_elements` calls. -/
def parameterElem (p : ParameterDetails) : ArrayElement :=
  .obj [("parameter_details", p.parameter_details)]

/-- The attribute of a `MethodDetails` pydantic object used by
`enumerate_array_elements` calls. -/
def methodElem (m : MethodDetails) : ArrayElement :=
  .obj [("method_name", m.method_name)]

/-- The attribute of an `AttributeDetails` pydantic object used by
`enumerate_array_elements` calls. -/
def attributeElem (a : AttributeDetails) : ArrayElement :=
  .obj [("attribute_name", a.attribute_name)]

/-- The attribute of a `RaiseDetails` pydantic object used by
`enumerate_array_elements` calls. -/
def raiseElem (r : RaiseDetails) : ArrayElement :=
  .obj [("raises_details", r.raises_details)]

/-- The attribute of a `WarnDetails` pydantic object used by
`enumerate_array_elements` calls. -/
def warnElem (w : WarnDetails) : ArrayElement :=
  .obj [("warns_details", w.warns_details)]

theorem enumerate_module_members (l : List ModuleMemberDetails) :
    enumerate_array_elements (l.map moduleMemberElem) (some "member_name")
      = .ok (format_enumeration (l.map (fun m => m.member_name))) :=
  enumerate_array_elements_objs _ _ _ _ (fun x => by simp [List.lookup])

theorem enumerate_enum_members (a : String) (l : List EnumMemberDetails)
    (f : EnumMemberDetails → String)
    (hf : ∀ x, [("enum_member", x.enum_member), ("enum_member_name", x.enum_member_name),
      ("enum_member_value", pyStr x.enum_member_value)].lookup a = some (f x)) :
    enumerate_array_elements (l.map enumMemberElem) (some a)
      = .ok (format_enumeration (l.map f)) :=
  enumerate_array_elements_objs _ _ _ _ hf

theorem enumerate_parameters (l : List ParameterDetails) :
    enumerate_array_elements (l.map parameterElem) (some "parameter_details")
      = .ok (format_enumeration (l.map (fun p => p.parameter_details))) :=
  enumerate_array_elements_objs _ _ _ _ (fun x => by simp [List.lookup])

theorem enumerate_methods (l : List MethodDetails) :
    enumerate_array_elements (l.map methodElem) (some "method_name")
      = .ok (format_enumeration (l.map (fun m => m.method_name))) :=
  enumerate_array_elements_objs _ _ _ _ (fun x => by simp [List.lookup])

theorem enumerate_attributes (l : List AttributeDetails) :
    enumerate_array_elements (l.map attributeElem) (some "attribute_name")
      = .ok (format_enumeration (l.map (fun a => a.attribute_name))) :=
  enumerate_array_elements_objs _ _ _ _ (fun x => by simp [List.lookup])

theorem enumerate_raises (l : List RaiseDetails) :
    enumerate_array_elements (l.map raiseElem) (some "raises_details")
      = .ok (format_enumeration (l.map (fun r => r.raises_details))) :=
  enumerate_array_elements_objs _ _ _ _ (fun x => by simp [List.lookup])

theorem enumerate_warns (l : List WarnDetails) :
    enumerate_array_elements (l.map warnElem) (some "warns_details")
      = .ok (format_enumeration (l.map (fun w => w.warns_details))) :=
  enumerate_array_elements_objs _ _ _ _ (fun x => by simp [List.lookup])

/-! ## `generate_package_dataset` (`step_2_generation.py` lines 101-620)

Each generator threads the global random state explicitly and ends with the
source's `Dataset(retrieval_chunks=..., tuning_pairs=...)` call, embedded as
`Dataset.validate (some chunks) none` (see `Dataset.validate`). -/

def generate_package_dataset (package_contents : PackageDetails) (s0 : RandomState) :
    Except PyError Dataset × RandomState :=
  let package_name := package_contents.package_name
  let package_full_name := package_contents.package_qualified_name
  let package := s!"'{package_name}' package"
  let chunks0 : List String := [s!"'{package_name}' is a Python package."]
  let b1 : List String × List TuningTriplet × RandomState :=
    match package_contents.parent_package_name with
    | none =>
      let root_package_pairs : List (String × String) := [
        ("What is the root package?", s!"'{package_name}' is the root package."),
        ("Can you tell me what the root package is?",
          s!"Sure, the root package is '{package_name}'."),
        ("I'm trying to find out the root package. Can you help?",
          s!"Of course, the root package is '{package_name}'."),
        ("Do you know what the root package is?",
          s!"Yes, the root package is '{package_name}'."),
        ("I'd like to know the root package.",
          s!"The root package you're asking about is '{package_name}'."),
        ("Could you identify the root package?",
          s!"Certainly, '{package_name}' is the root package.")]
      let a1 := allocate_tuning_pairs root_package_pairs DEFAULT_SPLIT_PROPORTIONS s0
      let chunks1 := chunks0 ++ [s!"'{package_name}' is the root package."]
      let parent_package_pairs : List (String × String) := [
        (s!"Name parent package of '{package_name}'.",
          s!"Being the root package, '{package_name}' has no parent package."),
        (s!"What is the parent package of '{package_name}'?",
          s!"The root package '{package_name}' does not have a parent package."),
        (s!"Can you tell me the parent package of '{package_name}'?",
          s!"'{package_name}' is a root package and therefore, it does not have a parent package."),
        (s!"Could you identify the parent package of '{package_name}'?",
          s!"As a root package, '{package_name}' does not possess a parent package."),
        (s!"I'm looking for the parent package of '{package_name}'. Can you help?",
          s!"Sure, '{package_name}' is a root package, so it doesn't have a parent package."),
        (s!"Do you know the parent package of '{package_name}'?",
          s!"Yes, '{package_name}' is a root package and hence, it doesn't have a parent package.")]
      let a2 := allocate_tuning_pairs parent_package_pairs DEFAULT_SPLIT_PROPORTIONS a1.2
      (chunks1 ++ [s!"'{package_name}' has no parent package."], a1.1 ++ a2.1, a2.2)
    | some parent_package =>
      let parent_package_pairs : List (String × String) := [
        (s!"Name parent package of '{package_name}' sub-package.",
          s!"'{parent_package}' is the full name of its parent package."),
        (s!"What is the parent package of the '{package_name}' sub-package?",
          s!"The parent package of '{package_name}' is '{parent_package}'."),
        (s!"Could you tell me the parent package of '{package_name}'?",
          s!"Sure, the parent package of '{package_name}' is '{parent_package}'."),
        (s!"I need to know the parent package of '{package_name}'.",
          s!"The parent package of '{package_name}' is '{parent_package}'."),
        (s!"Identify the parent package for the '{package_name}' sub-package.",
          s!"The parent package for '{package_name}' is identified as '{parent_package}'."),
        (s!"Can you name the parent package of the '{package_name}' sub-package?",
          s!"Yes, the parent package of '{package_name}' is '{parent_package}'.")]
      let a1 := allocate_tuning_pairs parent_package_pairs DEFAULT_SPLIT_PROPORTIONS s0
      let chunks1 := chunks0
        ++ [s!"'{package_name}' is part of parent package '{parent_package}'."]
      let package_full_name_pairs : List (String × String) := [
        (s!"Tell the full name of '{package_name}' sub-package.",
          s!"'{package_full_name}' is the fully qualified name of '{package_name}'."),
        (s!"What is the fully qualified name of the '{package_name}' sub-package?",
          s!"Fully qualified name of '{package_name}' sub-package is '{package_full_name}'."),
        (s!"Could you provide the full name of the '{package_name}' sub-package?",
          s!"Sure, the full name of '{package_name}' sub-package is '{package_full_name}'."),
        (s!"I need the full name of the '{package_name}' sub-package. Can you tell me?",
          s!"Of course, full name of '{package_name}' sub-package is '{package_full_name}'."),
        (s!"Can you inform me about the full name of the '{package_name}' sub-package?",
          s!"Certainly, full name of '{package_name}' sub-package is '{package_full_name}'."),
        (s!"Please, reveal the full name of the '{package_name}' sub-package.",
          s!"Absolutely, full name of '{package_name}' sub-package is '{package_full_name}'.")]
      let a2 := allocate_tuning_pairs package_full_name_pairs DEFAULT_SPLIT_PROPORTIONS a1.2
      let chunks2 := chunks1
        ++ [s!"Full name of '{package_name}' sub-package is '{package_full_name}'."]
      let package_hierarchy := format_enumeration package_contents.package_hierarchy
      let package_hierarchy_pairs : List (String × String) := [
        (s!"What is the hierarchy of {package}?",
          s!"The hierarchy of {package} is as follows: {package_hierarchy}."),
        (s!"Can you explain the hierarchy of the {package}?",
          s!"Sure, the hierarchy of the {package} is: {package_hierarchy}."),
        (s!"Could you describe the structure of the {package}?",
          s!"Of course, the structure of {package} is: {package_hierarchy}."),
        (s!"I need to understand the hierarchy of {package}. Can you help?",
          s!"Absolutely, the hierarchy of {package} is: {package_hierarchy}."),
        (s!"Please provide the hierarchy of the {package}.",
          s!"The hierarchy of the {package} is: {package_hierarchy}."),
        (s!"I'm interested in the structure of the {package}. What is it?",
          s!"The structure of {package} is as follows: {package_hierarchy}.")]
      let a3 := allocate_tuning_pairs package_hierarchy_pairs DEFAULT_SPLIT_PROPORTIONS a2.2
      (chunks2 ++ [s!"Hierarchy of {package} is as follows: {package_hierarchy}."],
        a1.1 ++ a2.1 ++ a3.1, a3.2)
  let b2 : List String × List TuningTriplet × RandomState :=
    if package_contents.children_sub_packages_names.isEmpty then
      let package_sub_package_pairs : List (String × String) := [
        (s!"List the sub-packages of {package}.",
          s!"{package} does not have any further sub-packages."),
        (s!"What are the sub-packages of the {package}?",
          s!"The {package} does not contain any sub-packages."),
        (s!"Could you tell me the sub-packages of {package}?",
          s!"I'm sorry, but the {package} doesn't have any sub-packages."),
        (s!"I need to know the sub-packages of {package}. Can you list them?",
          s!"Unfortunately, {package} doesn't include any sub-packages."),
        (s!"Can you provide a list of sub-packages for the {package}?",
          s!"There are no sub-packages in the {package}."),
        (s!"Identify the sub-packages of {package}.",
          s!"No sub-packages are present in the {package}.")]
      let a4 := allocate_tuning_pairs package_sub_package_pairs DEFAULT_SPLIT_PROPORTIONS b1.2.2
      (b1.1 ++ [s!"{package} does not have any further sub-packages."], b1.2.1 ++ a4.1, a4.2)
    else
      let children_sub_packages := package_contents.children_sub_packages_names
      let children_sub_packages_count := children_sub_packages.length
      let children_sub_packages_count_pairs : List (String × String) := [
        (s!"How many sub-packages are there in {package}?",
          s!"{package} has {children_sub_packages_count} many sub-packages."),
        (s!"What is the count of sub-packages in {package}?",
          s!"The count of sub-packages in {package} is {children_sub_packages_count}."),
        (s!"Could you tell me the number of sub-packages available in {package}?",
          s!"{package} has {children_sub_packages_count} sub-packages."),
        (s!"Please provide the count of sub-packages for {package}.",
          s!"Number of sub-packages in {package} is {children_sub_packages_count}."),
        (s!"Tell me the quantity of sub-packages present in {package}.",
          s!"{package} has {children_sub_packages_count} sub-packages."),
        (s!"Would you mind letting me know how many sub-packages {package} contains?",
          s!"{package} contains {children_sub_packages_count} sub-packages.")]
      let a4 := allocate_tuning_pairs children_sub_packages_count_pairs
        DEFAULT_SPLIT_PROPORTIONS b1.2.2
      let chunks3 := b1.1 ++ [s!"{package} has {children_sub_packages_count} many sub-packages."]
      let package_sub_packages := format_enumeration children_sub_packages
      let package_sub_package_pairs : List (String × String) := [
        (s!"List the sub-packages of {package}.",
          s!"Sub-packages of {package} are as follows: {package_sub_packages}."),
        (s!"What are the sub-packages of the {package}?",
          s!"The {package} has the following sub-packages: {package_sub_packages}."),
        (s!"Could you tell me the sub-packages of {package}?",
          s!"Sure, the sub-packages of {package} are: {package_sub_packages}."),
        (s!"I need to know the sub-packages of {package}. Can you list them?",
          s!"Of course, the sub-packages of {package} are: {package_sub_packages}."),
        (s!"Please provide the sub-packages of {package}.",
          s!"The sub-packages of {package} are: {package_sub_packages}."),
        (s!"Can you enumerate the sub-packages of {package}?",
          s!"Certainly, the sub-packages of {package} are: {package_sub_packages}.")]
      let a5 := allocate_tuning_pairs package_sub_package_pairs DEFAULT_SPLIT_PROPORTIONS a4.2
      (chunks3 ++ [s!"Sub-packages of {package} are as follows: {package_sub_packages}."],
        b1.2.1 ++ a4.1 ++ a5.1, a5.2)
  let b3 : List String × List TuningTriplet × RandomState :=
    if package_contents.children_modules_names.isEmpty then
      let package_module_pairs : List (String × String) := [
        (s!"What are the modules of {package}?",
          s!"{package} does not have any direct modules under itself."),
        (s!"Can you list the modules under the {package}?",
          s!"There are no direct modules under the {package}."),
        (s!"Does the {package} contain any modules?",
          s!"No, the {package} does not contain any direct modules."),
        (s!"I'm looking for the modules of {package}. Can you help?",
          s!"I'm sorry, but {package} does not have any direct modules."),
        (s!"Tell me about the modules of {package}.",
          s!"Actually, the {package} does not have any direct modules."),
        (s!"Are there any modules under the {package}?",
          s!"No, there aren't any direct modules under the {package}.")]
      let a6 := allocate_tuning_pairs package_module_pairs DEFAULT_SPLIT_PROPORTIONS b2.2.2
      (b2.1 ++ [s!"{package} does not have any further modules."], b2.2.1 ++ a6.1, a6.2)
    else
      let children_modules := package_contents.children_modules_names
      let children_modules_count := children_modules.length
      let children_modules_count_pairs : List (String × String) := [
        (s!"How many modules are there in {package}?",
          s!"{package} has {children_modules_count} many modules."),
        (s!"What is the count of modules in {package}?",
          s!"The count of modules in {package} is {children_modules_count}."),
        (s!"Could you tell me the number of modules available in {package}?",
          s!"{package} has {children_modules_count} modules."),
        (s!"Please provide the count of modules for {package}.",
          s!"The number of modules in {package} is {children_modules_count}."),
        (s!"Tell me the quantity of modules present in {package}.",
          s!"{package} has {children_modules_count} modules."),
        (s!"Would you mind letting me know how many modules {package} contains?",
          s!"{package} contains {children_modules_count} modules.")]
      let a6 := allocate_tuning_pairs children_modules_count_pairs
        DEFAULT_SPLIT_PROPORTIONS b2.2.2
      let chunks4 := b2.1 ++ [s!"{package} has {children_modules_count} many modules."]
      let package_modules := format_enumeration children_modules
      let package_module_pairs : List (String × String) := [
        (s!"What are the modules of {package}?",
          s!"Direct modules under {package} are as follows: {package_modules}."),
        (s!"Can you list the modules of the {package}?",
          s!"Sure, the direct modules under {package} are: {package_modules}."),
        (s!"I need to know the modules of the {package}.",
          s!"The modules you're looking for in {package} are: {package_modules}."),
        (s!"Could you tell me what the modules of the {package} are?",
          s!"Of course, the modules under {package} are: {package_modules}."),
        (s!"I'm interested in the modules of the {package}.",
          s!"The modules in {package} are: {package_modules}."),
        (s!"What modules does the {package} contain?",
          s!"The {package} contains these modules: {package_modules}.")]
      let a7 := allocate_tuning_pairs package_module_pairs DEFAULT_SPLIT_PROPORTIONS a6.2
      (chunks4 ++ [s!"Modules of {package} are as follows: {package_modules}."],
        b2.2.1 ++ a6.1 ++ a7.1, a7.2)
  let b4 : List String × List TuningTriplet × RandomState :=
    if !(strTruthy package_contents.package_summary) then
      let package_summary_pairs : List (String × String) := [
        (s!"What does {package} do?", s!"{package} does not have any documentation."),
        (s!"Can you tell me the functionality of the {package}?",
          s!"Unfortunately, the {package} provides no documentation."),
        (s!"I'm curious about what the {package} does. Can you enlighten me?",
          s!"I'm sorry, but the {package} does not come with any documentation."),
        (s!"Could you explain the purpose of the {package}?",
          s!"Regrettably, the {package} lacks any form of documentation."),
        (s!"What's the role of the {package}?",
          s!"The {package} does not offer any documentation."),
        (s!"What functionality does the {package} provide?",
          s!"The {package} does not have any available documentation.")]
      let a8 := allocate_tuning_pairs package_summary_pairs DEFAULT_SPLIT_PROPORTIONS b3.2.2
      (b3.1 ++ [s!"Unfortunately, {package} currently does not have any documentation."],
        b3.2.1 ++ a8.1, a8.2)
    else
      let package_summary := package_contents.package_summary.getD ""
      let package_summary_pairs : List (String × String) := [
        (s!"What does {package} do?",
          s!"Its documentation is as follows: '{package_summary}'."),
        (s!"Can you tell me about the {package}?",
          s!"Sure, here is its documentation: '{package_summary}'."),
        (s!"I'd like to know what the {package} does.",
          s!"Of course, here's the documentation for it: '{package_summary}'."),
        (s!"Could you explain the functionality of the {package}?",
          s!"Absolutely, the documentation states: '{package_summary}'."),
        (s!"What's the purpose of the {package}?",
          s!"The purpose is described in its documentation: '{package_summary}'."),
        (s!"I'm curious about the {package}, what does it do?",
          s!"Good question, its documentation reads: '{package_summary}'.")]
      let a8 := allocate_tuning_pairs package_summary_pairs DEFAULT_SPLIT_PROPORTIONS b3.2.2
      (b3.1 ++ [s!"The following is the documentation of {package}: '{package_summary}'."],
        b3.2.1 ++ a8.1, a8.2)
  let b5 : List String × List TuningTriplet × RandomState :=
    if !(optListTruthy package_contents.package_all_exports) then
      let package_members_pairs : List (String × String) := [
        (s!"What are the public members of the {package}?",
          s!"{package} does not have any public member exported through '__all__'."),
        (s!"Can you list the public members of the {package}?",
          s!"The {package} does not export any public members through '__all__'."),
        (s!"Are there any public members in the {package}?",
          s!"No, the {package} does not have any public members exported through '__all__'."),
        (s!"I'm looking for public members of {package}. Can you help?",
          s!"Sure, but the {package} does not export any public members through '__all__'."),
        (s!"Could you tell me the public members of the {package}?",
          s!"Unfortunately, the {package} does not have any public members"
            ++ " exported through '__all__'."),
        (s!"I'd like to know the public members of the {package}."
            ++ " Can you provide that information?",
          s!"I'm sorry, but the {package} does not have any public members"
            ++ " exported through '__all__'.")]
      let a9 := allocate_tuning_pairs package_members_pairs DEFAULT_SPLIT_PROPORTIONS b4.2.2
      (b4.1 ++ [s!"{package} does not export anything publicly using __all__ variable."],
        b4.2.1 ++ a9.1, a9.2)
    else
      let package_exports := package_contents.package_all_exports.getD []
      let package_exports_count := package_exports.length
      let package_exports_count_pairs : List (String × String) := [
        (s!"How many objects does {package} export publicly?",
          s!"{package} exports {package_exports_count} many objects using __all__."),
        (s!"What is the count of publicly exported objects in {package}?",
          s!"Count of publicly exported objects in {package} is {package_exports_count}."),
        (s!"Could you tell me the number of objects publicly exported by {package}?",
          s!"{package} exports {package_exports_count} objects using __all__."),
        (s!"Please provide the count of objects publicly exported by {package}.",
          s!"Number of objects publicly exported by {package} is {package_exports_count}."),
        (s!"Tell me the quantity of objects that {package} exports publicly.",
          s!"{package} exports {package_exports_count} objects using __all__."),
        (s!"Would you mind letting me know how many objects {package} publicly exports?",
          s!"{package} publicly exports {package_exports_count} objects.")]
      let a9 := allocate_tuning_pairs package_exports_count_pairs
        DEFAULT_SPLIT_PROPORTIONS b4.2.2
      let chunks5 := b4.1 ++ [s!"{package} has {package_exports_count} many public exports."]
      let package_public_members := format_enumeration package_exports
      let package_members_pairs : List (String × String) := [
        (s!"What are the public members of the {package}?",
          s!"{package} publicly exports the following members using '__all__':"
            ++ s!" {package_public_members}."),
        (s!"Can you list the public members of the {package}?",
          s!"Sure, the {package} publicly exports these members using '__all__':"
            ++ s!" {package_public_members}."),
        (s!"I need to know the public members of the {package}. Can you tell me?",
          s!"Of course, the {package} publicly exports these members using '__all__':"
            ++ s!" {package_public_members}."),
        (s!"Could you tell me what the {package} publicly exports?",
          s!"The {package} publicly exports the following members using '__all__':"
            ++ s!" {package_public_members}."),
        (s!"I'm interested in the public members of the {package}. What are they?",
          s!"The {package} publicly exports these members using '__all__':"
            ++ s!" {package_public_members}.")]
      let a10 := allocate_tuning_pairs package_members_pairs DEFAULT_SPLIT_PROPORTIONS a9.2
      (chunks5
        ++ [s!"{package} exports following public members using __all__:"
          ++ s!" {package_public_members}."],
        b4.2.1 ++ a9.1 ++ a10.1, a10.2)
  (Dataset.init_with_tuning_pairs b5.1 b5.2.1, b5.2.2)

/-! ## `generate_module_dataset` (`step_2_generation.py` lines 623-948) -/

def generate_module_dataset (module_contents : ModuleDetails) (s0 : RandomState) :
    Except PyError Dataset × RandomState :=
  let module_name := module_contents.module_name
  let module_full_name := module_contents.module_qualified_name
  let module := s!"'{module_name}' module"
  let package_name := module_contents.package_name
  let chunks0 : List String := [s!"'{module_name}' is a Python module."]
  let module_package_pairs : List (String × String) := [
    (s!"Can you tell the the parent package of {module}?",
      s!"'{package_name}' is the parent package of {module}."),
    (s!"What is the parent package of the {module}?",
      s!"The parent package of {module} is '{package_name}'."),
    (s!"I'm trying to find the parent package of the {module}. Can you help?",
      s!"Sure, parent package of {module} is '{package_name}'."),
    (s!"Could you inform me about the parent package of the {module}?",
      s!"Certainly, '{package_name}' is the parent package of the {module}."),
    (s!"I need to know the parent package of {module}. Can you provide that information?",
      s!"Absolutely, the parent package of the {module} is '{package_name}'."),
    (s!"Can you identify the parent package for the {module}?",
      s!"Yes, parent package for {module} is '{package_name}'.")]
  let a1 := allocate_tuning_pairs module_package_pairs DEFAULT_SPLIT_PROPORTIONS s0
  let chunks1 := chunks0 ++ [s!"{module} is part of parent package '{package_name}'."]
  let module_full_name_pairs : List (String × String) := [
    (s!"Specify the full name of {module}?",
      s!"'{module_full_name}' is fully qualified name for {module}."),
    (s!"What is the fully qualified name for the {module}?",
      s!"The fully qualified name for the {module} is '{module_full_name}'."),
    (s!"Could you tell me the full name of the {module}?",
      s!"Sure, the full name of the {module} is '{module_full_name}'."),
    (s!"I need the full name of the {module}. Can you provide it?",
      s!"Of course, the full name of the {module} is '{module_full_name}'."),
    (s!"Can you specify the fully qualified name of the {module}?",
      s!"Yes, fully qualified name of the {module} is '{module_full_name}'."),
    (s!"I'm looking for the full name of {module}. What is it?",
      s!"Full name of the {module} you're looking for is '{module_full_name}'.")]
  let a2 := allocate_tuning_pairs module_full_name_pairs DEFAULT_SPLIT_PROPORTIONS a1.2
  let chunks2 := chunks1 ++ [s!"Full name of {module} is '{module_full_name}'."]
  let module_hierarchy := format_enumeration module_contents.module_hierarchy
  let module_hierarchy_pairs : List (String × String) := [
    (s!"What is the hierarchy of {module}?",
      s!"The hierarchy of {module} is as follows: {module_hierarchy}."),
    (s!"Can you explain the hierarchy of the {module}?",
      s!"Sure, the hierarchy of the {module} is: {module_hierarchy}."),
    (s!"Could you describe the structure of the {module}?",
      s!"Of course, the structure of the {module} is: {module_hierarchy}."),
    (s!"I need to understand the hierarchy of the {module}. Can you help?",
      s!"Absolutely, the hierarchy of the {module} is: {module_hierarchy}."),
    (s!"Please provide the hierarchy of the {module}.",
      s!"The hierarchy of the {module} is: {module_hierarchy}."),
    (s!"What does the hierarchy of the {module} look like?",
      s!"The hierarchy of the {module} looks like this: {module_hierarchy}.")]
  let a3 := allocate_tuning_pairs module_hierarchy_pairs DEFAULT_SPLIT_PROPORTIONS a2.2
  let chunks3 := chunks2 ++ [s!"Hierarchy of {module} is as follows: {module_hierarchy}."]
  let module_members_count := module_contents.module_members.length
  let module_members_count_pairs : List (String × String) := [
    (s!"How many members does {module} have?",
      s!"{module} has {module_members_count} many members."),
    (s!"What is the count of members in {module}?",
      s!"The count of members in {module} is {module_members_count}."),
    (s!"Could you tell me the number of members in {module}?",
      s!"{module} has {module_members_count} members."),
    (s!"Please provide the count of members for {module}.",
      s!"The number of members in {module} is {module_members_count}."),
    (s!"Tell me the quantity of members present in {module}.",
      s!"{module} has {module_members_count} members."),
    (s!"Would you mind letting me know how many members {module} contains?",
      s!"{module} contains {module_members_count} members.")]
  let a4 := allocate_tuning_pairs module_members_count_pairs DEFAULT_SPLIT_PROPORTIONS a3.2
  let chunks4 := chunks3 ++ [s!"{module} has {module_members_count} many members."]
  let module_member_names := format_enumeration
    (module_contents.module_members.map (fun member => member.member_name))
  let module_members_pairs : List (String × String) := [
    (s!"List the members of {module}.",
      s!"Members of {module} are as follows: {module_member_names}."),
    (s!"What are the members of the {module}?",
      s!"The {module} has the following members: {module_member_names}."),
    (s!"Can you tell me the members of the {module}?",
      s!"Sure, the members of the {module} are: {module_member_names}."),
    (s!"I need to know the members of the {module}.",
      s!"Members of {module} you asked for are: {module_member_names}."),
    (s!"Could you list the members of the {module}?",
      s!"Of course, members of the {module} are: {module_member_names}."),
    (s!"Please provide the members of the {module}.",
      s!"Members of {module} you requested are: {module_member_names}.")]
  let a5 := allocate_tuning_pairs module_members_pairs DEFAULT_SPLIT_PROPORTIONS a4.2
  let chunks5 := chunks4 ++ [s!"Members of {module} are as follows: {module_member_names}."]
  let b6 : List String × List TuningTriplet × RandomState :=
    if !(strTruthy module_contents.module_summary) then
      let module_summary_pairs : List (String × String) := [
        (s!"What is the {module} for?", s!"{module} does not have any documentation."),
        (s!"Can you tell me the purpose of the {module}?",
          s!"The {module} lacks any documentation."),
        (s!"I'd like to know what the {module} is used for.",
          s!"Unfortunately, there is no documentation for the {module}."),
        (s!"Could you explain the function of the {module}?",
          s!"Regrettably, the {module} doesn't come with any documentation."),
        (s!"What does the {module} do?", s!"The {module} is without any documentation.")]
      let a6 := allocate_tuning_pairs module_summary_pairs DEFAULT_SPLIT_PROPORTIONS a5.2
      (chunks5 ++ [s!"Unfortunately, {module} currently does not have any documentation."],
        a1.1 ++ a2.1 ++ a3.1 ++ a4.1 ++ a5.1 ++ a6.1, a6.2)
    else
      let module_summary := module_contents.module_summary.getD ""
      let module_summary_pairs : List (String × String) := [
        (s!"What is the '{module_name}' module for?",
          s!"{module} documents itself as follows: '{module_summary}'."),
        (s!"Can you tell me the purpose of the '{module_name}' module?",
          s!"Purpose of {module} is documented as: '{module_summary}'."),
        (s!"I'm curious about the '{module_name}' module. What does it do?",
          s!"The {module} is described as: '{module_summary}'."),
        (s!"Could you explain the functionality of the '{module_name}' module?",
          s!"The functionality of the {module} is described as: '{module_summary}'."),
        (s!"I'd like to know more about the '{module_name}' module. What's its role?",
          s!"The role of the {module} is: '{module_summary}'."),
        (s!"What's the use of the '{module_name}' module?",
          s!"Use of the {module} is documented as: '{module_summary}'.")]
      let a6 := allocate_tuning_pairs module_summary_pairs DEFAULT_SPLIT_PROPORTIONS a5.2
      (chunks5 ++ [s!"The following is the documentation of {module}: {module_summary}."],
        a1.1 ++ a2.1 ++ a3.1 ++ a4.1 ++ a5.1 ++ a6.1, a6.2)
  let b7 : List String × List TuningTriplet × RandomState :=
    if !(optListTruthy module_contents.module_all_exports) then
      let module_exports_pairs : List (String × String) := [
        (s!"Tell me the public members of the {module}.",
          s!"{module} lacks any public member exported through '__all__'."),
        (s!"What are the public members of the {module}?",
          "There are no public members exported through '__all__' in the \x7bmodule\x7d."),
        (s!"Could you list the public members of the {module}?",
          s!"Unfortunately, {module} does not export any public members through '__all__'."),
        (s!"I need to know the public members of the {module}.",
          s!"The {module} does not have any public members exported through '__all__'."),
        (s!"Can you show me the public members of the {module}?",
          s!"The {module} does not contain any public members exported through '__all__'."),
        (s!"I'm interested in the public members of the {module}. What are they?",
          s!"{module} does not export any public members through '__all__'.")]
      let a7 := allocate_tuning_pairs module_exports_pairs DEFAULT_SPLIT_PROPORTIONS b6.2.2
      (b6.1 ++ [s!"{module} does not export anything publicly using __all__ variable."],
        b6.2.1 ++ a7.1, a7.2)
    else
      let module_exports := module_contents.module_all_exports.getD []
      let module_exports_count := module_exports.length
      let module_exports_count_pairs : List (String × String) := [
        (s!"How many objects does {module} export publicly?",
          s!"{module} exports {module_exports_count} many objects using __all__."),
        (s!"What is the count of publicly exported objects in {module}?",
          s!"The count of publicly exported objects in {module} is {module_exports_count}."),
        (s!"Could you tell me the number of objects publicly exported by {module}?",
          s!"{module} exports {module_exports_count} objects using __all__."),
        (s!"Please provide the count of objects publicly exported by {module}.",
          s!"The number of objects publicly exported by {module} is {module_exports_count}."),
        (s!"Tell me the quantity of objects that {module} exports publicly.",
          s!"{module} exports {module_exports_count} objects using __all__."),
        (s!"Would you mind letting me know how many objects {module} publicly exports?",
          s!"{module} publicly exports {module_exports_count} objects.")]
      let a7 := allocate_tuning_pairs module_exports_count_pairs
        DEFAULT_SPLIT_PROPORTIONS b6.2.2
      let chunks6 := b6.1 ++ [s!"{module} has {module_exports_count} many public exports."]
      let module_public_exports := format_enumeration module_exports
      let module_exports_pairs : List (String × String) := [
        (s!"Tell me the public members of the {module}.",
          s!"{module} publicly exports the following members using '__all__':"
            ++ s!" {module_public_exports}."),
        (s!"What are the public members of the {module}?",
          s!"The {module} publicly exports the following members using '__all__':"
            ++ s!" {module_public_exports}."),
        (s!"Could you list the public members of the {module}?",
          s!"Sure, the {module} publicly exports these members using '__all__':"
            ++ s!" {module_public_exports}."),
        (s!"I need to know the public members of the {module}.",
          s!"The {module} publicly exports these members using '__all__':"
            ++ s!" {module_public_exports}."),
        (s!"Can you show me the public members of the {module}?",
          s!"Of course, the {module} publicly exports the following members using '__all__':"
            ++ s!" {module_public_exports}.")]
      let a8 := allocate_tuning_pairs module_exports_pairs DEFAULT_SPLIT_PROPORTIONS a7.2
      (chunks6
        ++ [s!"{module} exports following members using __all__: {module_public_exports}."],
        b6.2.1 ++ a7.1 ++ a8.1, a8.2)
  (Dataset.init_with_tuning_pairs b7.1 b7.2.1, b7.2.2)

/-! ## `generate_enum_member_dataset` (`step_2_generation.py` lines 951-1112)

Each kind-specific generator is split into a `_core` computing the retrieval
chunks, the allocated tuning pairs and the advanced random state — the body
of the source function up to the final `Dataset(...)` call — and a wrapper
performing that call and returning the chunk list alongside, as the source
returns `(dataset, retrieval_chunks)`. -/

def generate_enum_member_core (enum_member enum_docstring : String)
    (member_type_details : EnumDetails) (s0 : RandomState) :
    List String × List TuningTriplet × RandomState :=
  let chunks0 : List String := [
    s!"{enum_member} is a Python enum.",
    s!"{enum_member} has following docstring: {enum_docstring}."]
  let enum_member_count := member_type_details.enum_members.length
  let enum_member_count_pairs : List (String × String) := [
    (s!"How many members are there in {enum_member}?",
      s!"{enum_member} has {enum_member_count} members."),
    (s!"What is the count of members in {enum_member}?",
      s!"The count of members in {enum_member} is {enum_member_count}."),
    (s!"Can you tell me the number of members in {enum_member}?",
      s!"Sure, the number of members in {enum_member} is {enum_member_count}."),
    (s!"Could you provide the total number of members in {enum_member}?",
      s!"The total number of members in {enum_member} is {enum_member_count}."),
    (s!"I need to know the quantity of members in {enum_member}.",
      s!"The quantity of members in {enum_member} is {enum_member_count}."),
    (s!"Please inform me about the number of members in {enum_member}.",
      s!"The number of members in {enum_member} is {enum_member_count}.")]
  let chunks1 := pyInsertBeforeLast chunks0
    s!"{enum_member} has {enum_member_count} many members."
  let a1 := allocate_tuning_pairs enum_member_count_pairs DEFAULT_SPLIT_PROPORTIONS s0
  let enum_members := format_enumeration
    (member_type_details.enum_members.map (fun em => em.enum_member))
  let enum_members_pairs : List (String × String) := [
    (s!"What are the different members of {enum_member}?",
      s!"Different members of {enum_member} are as follows: {enum_members}."),
    (s!"Can you list the different members of {enum_member}?",
      s!"Sure, the different members of {enum_member} are: {enum_members}."),
    (s!"Could you tell me the different members of {enum_member}?",
      s!"Of course, the different members of {enum_member} include: {enum_members}."),
    (s!"I need to know the different members of {enum_member}.",
      s!"The different members of {enum_member} are: {enum_members}."),
    (s!"What does {enum_member} consist of?",
      s!"{enum_member} consists of the following members: {enum_members}.")]
  let chunks2 := pyInsertBeforeLast chunks1
    s!"Members of {enum_member} are as follows: {enum_members}."
  let a2 := allocate_tuning_pairs enum_members_pairs DEFAULT_SPLIT_PROPORTIONS a1.2
  let enum_member_names := format_enumeration
    (member_type_details.enum_members.map (fun em => em.enum_member_name))
  let enum_member_names_pairs : List (String × String) := [
    (s!"List just the names of different members of {enum_member}.",
      s!"Different members of {enum_member} have the following names: {enum_member_names}."),
    (s!"Can you provide the names of different members of {enum_member}?",
      s!"Sure, different members of {enum_member} are named as follows: {enum_member_names}."),
    (s!"What are the names of different members of {enum_member}?",
      s!"The names of different members of {enum_member} are: {enum_member_names}."),
    (s!"I need the names of different members of {enum_member}.",
      s!"The different members of {enum_member} have these names: {enum_member_names}."),
    (s!"Could you list the names of different members of {enum_member}?",
      s!"Of course, different members of {enum_member} have these names: {enum_member_names}."),
    (s!"Show me the names of different members of {enum_member}.",
      s!"The names of different members of {enum_member} are: {enum_member_names}.")]
  let chunks3 := pyInsertBeforeLast chunks2
    s!"Names of different members of {enum_member} are as follows: {enum_member_names}."
  let a3 := allocate_tuning_pairs enum_member_names_pairs DEFAULT_SPLIT_PROPORTIONS a2.2
  let enum_member_values := format_enumeration
    (member_type_details.enum_members.map (fun em => pyStr em.enum_member_value))
  let enum_member_values_pairs : List (String × String) := [
    (s!"Only show the different values supported by {enum_member}.",
      s!"{enum_member} supports the following values: {enum_member_values}."),
    (s!"What are the different values that {enum_member} supports?",
      s!"The different values that {enum_member} supports are: {enum_member_values}."),
    (s!"Can you list the values supported by {enum_member}?",
      s!"Sure, {enum_member} supports these values: {enum_member_values}."),
    (s!"I need to know the values supported by {enum_member}.",
      s!"{enum_member} supports these values: {enum_member_values}."),
    (s!"Could you tell me the values that {enum_member} supports?",
      s!"Of course, the values that {enum_member} supports are: {enum_member_values}."),
    (s!"Please provide the values supported by {enum_member}.",
      s!"The values supported by {enum_member} are: {enum_member_values}.")]
  let chunks4 := pyInsertBeforeLast chunks3
    s!"Values of different members of {enum_member} are as follows: {enum_member_values}."
  let a4 := allocate_tuning_pairs enum_member_values_pairs DEFAULT_SPLIT_PROPORTIONS a3.2
  (chunks4, a1.1 ++ a2.1 ++ a3.1 ++ a4.1, a4.2)

/-- `generate_enum_member_dataset`: its `Dataset(...)` call passes the FULL
chunk list (no `[:2]` truncation, unlike the class and function variants)
and the source returns `(dataset, retrieval_chunks)`. -/
def generate_enum_member_dataset (enum_member enum_docstring : String)
    (member_type_details : EnumDetails) (s0 : RandomState) :
    Except PyError (Dataset × List String) × RandomState :=
  let core := generate_enum_member_core enum_member enum_docstring member_type_details s0
  ((Dataset.init_with_tuning_pairs core.1 core.2.1).map (fun enum_member_dataset =>
    (enum_member_dataset, core.1)), core.2.2)

/-! ## `generate_class_member_dataset` (`step_2_generation.py` lines 1115-1854) -/

/-- The body of the `for class_parameter in class_parameters` loop of
`generate_class_member_dataset` (lines 1211-1408): the default-value fact,
the type-hint fact and the summary fact of one constructor parameter. -/
def class_parameter_step (class_member : String)
    (acc : List String × List TuningTriplet × RandomState)
    (class_parameter : ParameterDetails) : List String × List TuningTriplet × RandomState :=
  let parameter_name := class_parameter.parameter_name
  let parameter := s!"'{parameter_name}' argument in {class_member}"
  let d1 : List String × List TuningTriplet × RandomState :=
    if class_parameter.parameter_default.isEmptySentinel then
      let class_parameter_defaults_pairs : List (String × String) := [
        (s!"Tell default value of {parameter}.",
          s!"{parameter} does not have a default value."),
        (s!"What is the default value of {parameter}?",
          s!"The {parameter} does not have a default value."),
        (s!"Could you inform me about default value of {parameter}?",
          s!"Sure, the {parameter} does not have a default value."),
        (s!"I need to know the default value of {parameter}. Can you help?",
          s!"Of course, the {parameter} does not have a default value."),
        (s!"Can you tell me if {parameter} has default value?",
          s!"No, the {parameter} does not have a default value."),
        (s!"I'm curious about default value of {parameter}.",
          s!"Well, the {parameter} does not have a default value.")]
      let a := allocate_tuning_pairs class_parameter_defaults_pairs
        DEFAULT_SPLIT_PROPORTIONS acc.2.2
      (acc.1 ++ [s!"{parameter} does not have a default value."], acc.2.1 ++ a.1, a.2)
    else
      let parameter_default := pyStr class_parameter.parameter_default
      let class_parameter_defaults_pairs : List (String × String) := [
        (s!"Tell default value of {parameter}.",
          s!"{parameter} takes {parameter_default} by default."),
        (s!"What is the default value of {parameter}?",
          s!"The default value of {parameter} is {parameter_default}."),
        (s!"Could you inform me about default value of {parameter}?",
          s!"Sure, the default value of {parameter} is {parameter_default}."),
        (s!"I need to know the default value of {parameter}.",
          s!"The default value of {parameter} is {parameter_default}."),
        (s!"Can you provide default value of {parameter}?",
          s!"Yes, default value of {parameter} is {parameter_default}."),
        (s!"Please, disclose default value of {parameter}.",
          s!"Certainly, the default value of {parameter} is {parameter_default}.")]
      let a := allocate_tuning_pairs class_parameter_defaults_pairs
        DEFAULT_SPLIT_PROPORTIONS acc.2.2
      (acc.1 ++ [s!"{parameter_default} is the default value of {parameter}."],
        acc.2.1 ++ a.1, a.2)
  let d2 : List String × List TuningTriplet × RandomState :=
    if class_parameter.parameter_annot.isEmptySentinel then
      let class_parameter_types_pairs : List (String × String) := [
        (s!"Name type hint for {parameter}.",
          s!"{parameter} does not have a type annotation."),
        (s!"What is the type hint for {parameter}?",
          s!"There is no type annotation for the {parameter}."),
        (s!"Can you tell me the type hint for {parameter}?",
          s!"The {parameter} is not annotated with a type."),
        (s!"I'm looking for the type hint for {parameter}. Can you help?",
          s!"Sure, the {parameter} does not have a type annotation."),
        (s!"Could you provide the type hint for {parameter}?",
          s!"Unfortunately, {parameter} does not have type annotation."),
        (s!"I need to know the type hint for {parameter}.",
          s!"The {parameter} does not come with a type annotation.")]
      let a := allocate_tuning_pairs class_parameter_types_pairs
        DEFAULT_SPLIT_PROPORTIONS d1.2.2
      (d1.1 ++ [s!"Type hint for {parameter} is unavailable."], d1.2.1 ++ a.1, a.2)
    else
      let parameter_annot := pyStr class_parameter.parameter_annot
      let class_parameter_types_pairs : List (String × String) := [
        (s!"Name type hint for {parameter}.",
          s!"{parameter} has '{parameter_annot}' as type hint."),
        (s!"What is the type hint for {parameter}?",
          s!"The type hint for {parameter} is '{parameter_annot}'."),
        (s!"Could you tell me the type hint for {parameter}?",
          s!"Sure, the type hint for {parameter} is '{parameter_annot}'."),
        (s!"I need to know the type hint for {parameter}.",
          s!"The type hint for {parameter} is '{parameter_annot}'."),
        (s!"Identify the type hint for {parameter}.",
          s!"The type hint for {parameter} is '{parameter_annot}'."),
        (s!"Can you specify the type hint for {parameter}?",
          s!"Yes, the type hint for {parameter} is '{parameter_annot}'.")]
      let a := allocate_tuning_pairs class_parameter_types_pairs
        DEFAULT_SPLIT_PROPORTIONS d1.2.2
      (d1.1 ++ [s!"{parameter} is annotated as '{parameter_annot}' type."],
        d1.2.1 ++ a.1, a.2)
  let d3 : List String × List TuningTriplet × RandomState :=
    if !(strTruthy class_parameter.parameter_summary) then
      let class_parameter_summary_pairs : List (String × String) := [
        (s!"What does {parameter} do?",
          s!"Docstring of {class_member} does not describe '{parameter_name}'."),
        (s!"Can you explain the role of {parameter}?",
          s!"The docstring of {class_member} does not provide any information about"
            ++ s!" '{parameter_name}'."),
        (s!"I'm trying to understand what {parameter} does. Can you help?",
          s!"Unfortunately, the docstring of {class_member} does not mention anything"
            ++ s!" about '{parameter_name}'."),
        (s!"What is the function of {parameter}?",
          s!"There is no description of '{parameter_name}' in the docstring of"
            ++ s!" {class_member}."),
        (s!"Could you tell me what '{parameter_name}' does in {class_member}?",
          s!"The docstring of {class_member} does not contain any details about"
            ++ s!" '{parameter_name}'."),
        (s!"I'm curious about the purpose of {parameter}. Can you enlighten me?",
          s!"I'm sorry, but the docstring of {class_member} does not discuss"
            ++ s!" '{parameter_name}'.")]
      let a := allocate_tuning_pairs class_parameter_summary_pairs
        DEFAULT_SPLIT_PROPORTIONS d2.2.2
      (d2.1 ++ [s!"{parameter} lacks any documentation in the docstring."],
        d2.2.1 ++ a.1, a.2)
    else
      let parameter_summary := (class_parameter.parameter_summary).getD ""
      let class_parameter_summary_pairs : List (String × String) := [
        (s!"What does {parameter} do?",
          s!"{class_member} documents role of '{parameter_name}' as follows:"
            ++ s!" '{parameter_summary}'."),
        (s!"Can you explain the role of {parameter}?",
          s!"Sure, {class_member} describes '{parameter_name}' as follows:"
            ++ s!" '{parameter_summary}'."),
        (s!"I'm curious about {parameter}. What does it do?",
          s!"In {class_member}, '{parameter_name}' is documented as follows:"
            ++ s!" '{parameter_summary}'."),
        (s!"Could you tell me what {parameter} does?",
          s!"Of course, {parameter} is described as follows: '{parameter_summary}'."),
        (s!"What's the function of {parameter}?",
          s!"{class_member} describes the function of '{parameter_name}' as follows:"
            ++ s!" '{parameter_summary}'."),
        (s!"I'd like to know the purpose of {parameter}.",
          s!"In {class_member}, the purpose of '{parameter_name}' is defined as follows:"
            ++ s!" '{parameter_summary}'.")]
      let a := allocate_tuning_pairs class_parameter_summary_pairs
        DEFAULT_SPLIT_PROPORTIONS d2.2.2
      (d2.1 ++ [s!"As per docstring, role of {parameter} is: '{parameter_summary}'."],
        d2.2.1 ++ a.1, a.2)
  d3

/-- The body of the `for class_method in class_methods` loop of
`generate_class_member_dataset` (lines 1511-1625): the parameter fact and
the summary fact of one public method. -/
def class_method_step (class_member : String)
    (acc : List String × List TuningTriplet × RandomState)
    (class_method : MethodDetails) : List String × List TuningTriplet × RandomState :=
  let method_name := class_method.method_name
  let method := s!"'{method_name}' method of {class_member}"
  let d1 : List String × List TuningTriplet × RandomState :=
    if class_method.method_parameters.isEmpty then
      let class_method_parameters_pairs : List (String × String) := [
        (s!"What arguments do {method} accept?", s!"{method} does not take any parameters."),
        (s!"Can you tell me the parameters that {method} requires?",
          s!"The {method} does not require any parameters."),
        (s!"What are the inputs for the {method} in {class_member}?",
          s!"There are no inputs for the {method} in {class_member}."),
        (s!"Does the {method} need any arguments?",
          s!"No, {method} does not need any arguments."),
        (s!"What parameters should I pass to {method}?",
          s!"You don't need to pass any parameters to the {method}."),
        (s!"What are required arguments for {method}?",
          s!"{method} does not require any arguments.")]
      let a := allocate_tuning_pairs class_method_parameters_pairs
        DEFAULT_SPLIT_PROPORTIONS acc.2.2
      (acc.1 ++ [s!"{method} takes no arguments."], acc.2.1 ++ a.1, a.2)
    else
      let class_method_parameters := format_enumeration class_method.method_parameters
      let class_method_parameters_pairs : List (String × String) := [
        (s!"What arguments do {method} accept?",
          s!"{method} takes the following parameters: {class_method_parameters}."),
        (s!"Can you tell me the parameters that {method} requires?",
          s!"Sure, {method} requires these parameters: {class_method_parameters}."),
        (s!"I need to know arguments for {method}.",
          s!"The {method} has these arguments: {class_method_parameters}."),
        (s!"What are the parameters for '{method}'?",
          s!"The parameters for {method} are: {class_method_parameters}."),
        (s!"Could you list the arguments that the {method} takes?",
          s!"Certainly, the {method} takes these arguments: {class_method_parameters}.")]
      let a := allocate_tuning_pairs class_method_parameters_pairs
        DEFAULT_SPLIT_PROPORTIONS acc.2.2
      (acc.1 ++ [s!"{method} accepts following parameters: {class_method_parameters}"],
        acc.2.1 ++ a.1, a.2)
  let d2 : List String × List TuningTriplet × RandomState :=
    if !(strTruthy class_method.method_summary) then
      let class_method_summary_pairs : List (String × String) := [
        (s!"What does {method} do?", s!"Docstring of {method} is missing."),
        (s!"Can you explain functionality of {method}?",
          s!"The docstring for {method} is not available."),
        (s!"I'm trying to understand what {method} does. Can you help?",
          s!"Unfortunately, the docstring for {method} is not provided."),
        (s!"Could you describe the role of {method}?",
          s!"There is no docstring available for {method}."),
        (s!"I'm not sure what {method} does. Can you clarify?",
          s!"The {method} lacks a docstring."),
        (s!"What's the purpose of {method}?", s!"The {method} doesn't have a docstring.")]
      let a := allocate_tuning_pairs class_method_summary_pairs
        DEFAULT_SPLIT_PROPORTIONS d1.2.2
      (d1.1 ++ [s!"Unfortunately, {method} is not documented."], d1.2.1 ++ a.1, a.2)
    else
      let method_summary := (class_method.method_summary).getD ""
      let class_method_summary_pairs : List (String × String) := [
        (s!"What does {method} do?",
          s!"Based on method docstring, its role is to '{method_summary}'."),
        (s!"Can you explain the function of {method}?",
          s!"Sure, according to method docstring, it is designed to '{method_summary}'."),
        (s!"I'm curious about the {method}. What's its purpose?",
          s!"Well, if we look at the docstring of {method}, we can see that it's meant to"
            ++ s!" '{method_summary}'."),
        (s!"Could you tell me what the {method} does?",
          s!"Of course, the docstring of {method} indicates that its function is to"
            ++ s!" '{method_summary}'."),
        (s!"I'd like to understand role of {method}.",
          s!"Certainly, method docstring reveals that its job is to '{method_summary}'."),
        (s!"What's the functionality of the {method}?",
          s!"As per the method docstring, it's designed to '{method_summary}'.")]
      let a := allocate_tuning_pairs class_method_summary_pairs
        DEFAULT_SPLIT_PROPORTIONS d1.2.2
      (d1.1 ++ [s!"Based on docstring, {method} has the purpose of '{method_summary}'."],
        d1.2.1 ++ a.1, a.2)
  d2

def class_parameters_block (class_member : String)
    (member_type_details : ClassDetails)
    (acc : List String × List TuningTriplet × RandomState) : List String × List TuningTriplet × RandomState :=
    if member_type_details.class_parameters.isEmpty then
      let class_parameters_pairs : List (String × String) := [
        (s!"What are the different parameters of {class_member}?",
          s!"{class_member} needs no arguments for instantiation."),
        (s!"Can you tell me the parameters required for {class_member}?",
          s!"No parameters are required for instantiating {class_member}."),
        (s!"What arguments do I need to instantiate {class_member}?",
          s!"You don't need any arguments to instantiate {class_member}."),
        (s!"Do I need any parameters to use {class_member}?",
          s!"{class_member} can be used without any parameters."),
        (s!"What should I pass as arguments when creating an instance of {class_member}?",
          s!"There's no need to pass any arguments when creating an instance of {class_member}."),
        (s!"Are there any parameters needed for the instantiation of {class_member}?",
          s!"The instantiation of {class_member} doesn't require any parameters.")]
      let a := allocate_tuning_pairs class_parameters_pairs DEFAULT_SPLIT_PROPORTIONS acc.2.2
      (acc.1 ++ [s!"{class_member} requires no arguments for instantiation."], acc.2.1 ++ a.1, a.2)
    else
      let class_parameter_names := format_enumeration
        (member_type_details.class_parameters.map (fun p => p.parameter_details))
      let class_parameters_pairs : List (String × String) := [
        (s!"What are the different parameters of {class_member}?",
          s!"{class_member} supports these arguments to initiate"
            ++ s!" a new instance: {class_parameter_names}."),
        (s!"Can you list the parameters for {class_member}?",
          s!"Sure, {class_member} can be initiated with these arguments:"
            ++ s!" {class_parameter_names}."),
        (s!"I need to know the parameters of {class_member}.",
          s!"The parameters to initiate a new instance of {class_member} are:"
            ++ s!" {class_parameter_names}."),
        (s!"Tell me the parameters that {class_member} supports.",
          s!"{class_member} can be initiated with these arguments: {class_parameter_names}."),
        (s!"What arguments does {class_member} take for initialisation?",
          s!"To initialise {class_member}, you can use these arguments:"
            ++ s!" {class_parameter_names}.")]
      let a := allocate_tuning_pairs class_parameters_pairs DEFAULT_SPLIT_PROPORTIONS acc.2.2
      (acc.1
        ++ [s!"{class_member} requires the following arguments for initialisation:"
          ++ s!" {class_parameter_names}"], acc.2.1 ++ a.1, a.2)

def class_methods_block (class_member : String)
    (member_type_details : ClassDetails)
    (acc : List String × List TuningTriplet × RandomState) : List String × List TuningTriplet × RandomState :=
    if member_type_details.class_methods.isEmpty then
      let class_method_names_pairs : List (String × String) := [
        (s!"List names of the public methods of {class_member}.",
          s!"{class_member} does not have any public methods (not starting with '_')."),
        (s!"Can you provide the names of the public methods for {class_member}?",
          s!"Unfortunately, {class_member} does not have any public methods."),
        (s!"What are the public methods of {class_member}?",
          s!"There are no public methods (not starting with '_') in {class_member}."),
        (s!"I need to know the public methods of {class_member}. Can you list them?",
          s!"I'm sorry, but {class_member} does not have any public methods."),
        (s!"Could you list the public methods of {class_member}?",
          s!"{class_member} does not contain any public methods (not starting with '_')."),
        (s!"Show me the public methods of {class_member}.",
          s!"It appears that {class_member} does not have any public methods.")]
      let a := allocate_tuning_pairs class_method_names_pairs
        DEFAULT_SPLIT_PROPORTIONS acc.2.2
      (acc.1 ++ [s!"{class_member} has no public (without _ as the prefix) methods."],
        acc.2.1 ++ a.1, a.2)
    else
      let class_methods_count := member_type_details.class_methods.length
      let class_methods_count_pairs : List (String × String) := [
        (s!"How many public methods does {class_member} have?",
          s!"{class_member} has {class_methods_count} many public methods."),
        (s!"What is the count of public methods in {class_member}?",
          s!"The count of public methods in {class_member} is {class_methods_count}."),
        (s!"Could you tell me the number of public methods in {class_member}?",
          s!"{class_member} has {class_methods_count} public methods."),
        (s!"Please provide the count of public methods for {class_member}.",
          s!"The number of public methods in {class_member} is {class_methods_count}."),
        (s!"Tell me the quantity of public methods present in {class_member}.",
          s!"{class_member} has {class_methods_count} public methods."),
        (s!"Would you mind letting me know how many public methods {class_member} contains?",
          s!"{class_member} contains {class_methods_count} public methods.")]
      let a := allocate_tuning_pairs class_methods_count_pairs
        DEFAULT_SPLIT_PROPORTIONS acc.2.2
      let chunks := acc.1 ++ [s!"{class_member} has {class_methods_count} many public methods."]
      let class_public_methods := format_enumeration
        (member_type_details.class_methods.map (fun m => m.method_name))
      let class_method_names_pairs : List (String × String) := [
        (s!"List names of the public methods of {class_member}.",
          s!"Here are the public methods of {class_member}: {class_public_methods}."),
        (s!"Can you provide the names of the public methods for {class_member}?",
          s!"Sure, the public methods of {class_member} that do not start with '_' are:"
            ++ s!" {class_public_methods}."),
        (s!"What are the public methods of {class_member}?",
          s!"The public methods of {class_member} (excluding those starting with '_') are:"
            ++ s!" {class_public_methods}."),
        (s!"I need to know the public methods of {class_member}.",
          s!"The public methods of {class_member} (those not starting with '_') are:"
            ++ s!" {class_public_methods}."),
        (s!"Could you list the public methods of {class_member}?",
          s!"Of course, the public methods of {class_member} (not beginning with '_') are:"
            ++ s!" {class_public_methods}."),
        (s!"Please show me the public methods of {class_member}.",
          s!"Here you go, the public methods of {class_member}"
            ++ s!" (excluding those with a prefix '_') are: {class_public_methods}.")]
      let a2 := allocate_tuning_pairs class_method_names_pairs DEFAULT_SPLIT_PROPORTIONS a.2
      (chunks ++ [s!"{class_member} has the following public methods: {class_public_methods}"],
        acc.2.1 ++ a.1 ++ a2.1, a2.2)

def class_attributes_block (class_member : String)
    (member_type_details : ClassDetails)
    (acc : List String × List TuningTriplet × RandomState) : List String × List TuningTriplet × RandomState :=
    if member_type_details.class_attributes.isEmpty then
      let class_attribute_names_pairs : List (String × String) := [
        (s!"Are there any public attributes of {class_member}?",
          s!"{class_member} has no public attributes (not starting with '_')."),
        (s!"Does {class_member} have any public attributes?",
          s!"No, {class_member} does not have any public attributes."),
        (s!"Can you tell me if {class_member} has any public attributes?",
          s!"{class_member} does not have any public attributes (not starting with '_')."),
        (s!"I'm looking for public attributes of {class_member}. Are there any?",
          s!"There are no public attributes (not starting with '_') for {class_member}."),
        (s!"Is it possible to find any public attributes in {class_member}?",
          s!"It's not possible to find any public attributes in {class_member}.")]
      let a := allocate_tuning_pairs class_attribute_names_pairs
        DEFAULT_SPLIT_PROPORTIONS acc.2.2
      (acc.1 ++ [s!"{class_member} has no public attributes."], acc.2.1 ++ a.1, a.2)
    else
      let class_attributes_count := member_type_details.class_attributes.length
      let class_attributes_count_pairs : List (String × String) := [
        (s!"How many public attributes does {class_member} have?",
          s!"{class_member} has {class_attributes_count} many public attributes."),
        (s!"What is the count of public attributes in {class_member}?",
          s!"The count of public attributes in {class_member} is {class_attributes_count}."),
        (s!"Could you tell me the number of public attributes in {class_member}?",
          s!"{class_member} has {class_attributes_count} public attributes."),
        (s!"Please provide the count of public attributes for {class_member}.",
          s!"Number of public attributes in {class_member} is {class_attributes_count}."),
        (s!"Tell me the quantity of public attributes present in {class_member}.",
          s!"{class_member} has {class_attributes_count} public attributes."),
        (s!"Would you mind letting me know how many public attributes {class_member} contains?",
          s!"{class_member} contains {class_attributes_count} public attributes.")]
      let a := allocate_tuning_pairs class_attributes_count_pairs
        DEFAULT_SPLIT_PROPORTIONS acc.2.2
      let chunks := acc.1
        ++ [s!"{class_member} has {class_attributes_count} many public attributes."]
      let class_public_attributes := format_enumeration
        (member_type_details.class_attributes.map (fun ca => ca.attribute_name))
      let class_attribute_names_pairs : List (String × String) := [
        (s!"Are there any public attributes of {class_member}?",
          s!"These are the public attributes of {class_member}: {class_public_attributes}."),
        (s!"Can you list the public attributes of {class_member}?",
          s!"{class_member} has the following public attributes (not starting with '_'):"
            ++ s!" {class_public_attributes}."),
        (s!"What are the public attributes of {class_member}?",
          s!"The public attributes of {class_member} (those not starting with '_') are:"
            ++ s!" {class_public_attributes}."),
        (s!"I need to know the public attributes of {class_member}.",
          s!"Sure, the public attributes of {class_member} are: {class_public_attributes}."),
        (s!"Could you tell me the public attributes of {class_member}?",
          s!"Of course, public attributes of {class_member} (not starting with '_') are:"
            ++ s!" {class_public_attributes}.")]
      let a2 := allocate_tuning_pairs class_attribute_names_pairs
        DEFAULT_SPLIT_PROPORTIONS a.2
      (chunks
        ++ [s!"{class_member} has following public attributes: {class_public_attributes}"],
        acc.2.1 ++ a.1 ++ a2.1, a2.2)

def class_summary_block (class_member : String)
    (member_type_details : ClassDetails)
    (acc : List String × List TuningTriplet × RandomState) : List String × List TuningTriplet × RandomState :=
    if !(strTruthy member_type_details.class_summary) then
      let class_summary_pairs : List (String × String) := [
        (s!"What does {class_member} do in short?",
          s!"Docstring of {class_member} lacks a summary of its objective."),
        (s!"Can you briefly explain the function of {class_member}?",
          s!"Docstring of {class_member} doesn't provide a concise summary of its purpose."),
        (s!"Could you tell me what {class_member} is used for?",
          s!"Unfortunately, the docstring of {class_member} doesn't contain"
            ++ " a brief description of its function."),
        (s!"I'm not sure what {class_member} does. Can you clarify?",
          s!"The docstring of {class_member} doesn't succinctly explain its role."),
        (s!"What's the purpose of {class_member}?",
          s!"Docstring of {class_member} doesn't have any explanation of its objective.")]
      let a := allocate_tuning_pairs class_summary_pairs DEFAULT_SPLIT_PROPORTIONS acc.2.2
      (acc.1 ++ [s!"Unfortunately, {class_member} does not document its objective."],
        acc.2.1 ++ a.1, a.2)
    else
      let class_summary := (member_type_details.class_summary).getD ""
      let class_summary_pairs : List (String × String) := [
        (s!"What does {class_member} do in short?",
          s!"Based on documentation, objective of {class_member} is to: '{class_summary}'."),
        (s!"Can you briefly explain the function of {class_member}?",
          s!"Sure, according to the documentation, {class_member} is designed to:"
            ++ s!" '{class_summary}'."),
        (s!"I'm curious about {class_member}, what's its purpose?",
          s!"Well, as per the documentation, {class_member} aims to: '{class_summary}'."),
        (s!"Could you give me a quick rundown on what {class_member} does?",
          s!"Absolutely, the documentation states that the role of {class_member} is to:"
            ++ s!" '{class_summary}'."),
        (s!"What's the role of {class_member} in a nutshell?",
          s!"The documentation indicates that the purpose of {class_member} is to:"
            ++ s!" '{class_summary}'."),
        (s!"Can you summarise the function of {class_member}?",
          s!"Of course, the documentation outlines that {class_member} is intended to:"
            ++ s!" '{class_summary}'.")]
      let a := allocate_tuning_pairs class_summary_pairs DEFAULT_SPLIT_PROPORTIONS acc.2.2
      (acc.1 ++ [s!"{class_member} documents its purpose as follows: '{class_summary}'."],
        acc.2.1 ++ a.1, a.2)

def class_notes_block (class_member : String)
    (member_type_details : ClassDetails)
    (acc : List String × List TuningTriplet × RandomState) : List String × List TuningTriplet × RandomState :=
    if !(strTruthy member_type_details.class_notes) then
      let class_notes_pairs : List (String × String) := [
        (s!"Mention any specific details for {class_member} to be aware of.",
          s!"Docstring of {class_member} does not note on specific details."),
        (s!"What are the specific details to be aware of for {class_member}?",
          s!"There are no specific details noted in the docstring of {class_member}."),
        (s!"Could you tell me any specifics for {class_member} that I should be aware of?",
          s!"The docstring of {class_member} doesn't highlight any details."),
        (s!"Are there any specific details for {class_member} that I need to know?",
          s!"No specific details are mentioned in the docstring of {class_member}."),
        (s!"I need to know the specific details for {class_member}. Can you provide them?",
          s!"Unfortunately, the docstring of {class_member} does not contain any details."),
        (s!"Can you specify any details for {class_member} that I should be aware of?",
          s!"The docstring of {class_member} does not specify any details to be aware of.")]
      let a := allocate_tuning_pairs class_notes_pairs DEFAULT_SPLIT_PROPORTIONS acc.2.2
      (acc.1 ++ [s!"Docstring of {class_member} has contains no specific implementation details."],
        acc.2.1 ++ a.1, a.2)
    else
      let class_notes := (member_type_details.class_notes).getD ""
      let class_notes_pairs : List (String × String) := [
        (s!"Mention any specific details for {class_member} to be aware of.",
          s!"The {class_member} docstring highlights the following: '{class_notes}'."),
        (s!"What are specifics that I should be aware of before using {class_member}?",
          s!"The details you should know to use {class_member} are highlighted in docstring:"
            ++ s!" '{class_notes}'."),
        (s!"Could you specify the details for {class_member} to take note of?",
          s!"Sure, the docstring for {class_member} specifies the following details:"
            ++ s!" '{class_notes}'."),
        (s!"Can you list the details for {class_member} to keep in mind?",
          s!"Certainly, the docstring for {class_member} lists the following details:"
            ++ s!" '{class_notes}'."),
        (s!"What should users of {class_member} be mindful of?",
          s!"The docstring for {class_member} mentions the following points to be mindful of:"
            ++ s!" '{class_notes}'."),
        (s!"What details does the user of {class_member} need to know?",
          s!"User of {class_member} needs to know the following details: '{class_notes}'.")]
      let a := allocate_tuning_pairs class_notes_pairs DEFAULT_SPLIT_PROPORTIONS acc.2.2
      (acc.1 ++ [s!"In docstring, {class_member} specifies the following: '{class_notes}'."],
        acc.2.1 ++ a.1, a.2)

def generate_class_member_core (class_member class_docstring : String)
    (member_type_details : ClassDetails) (s0 : RandomState) :
    List String × List TuningTriplet × RandomState :=
  let chunks0 : List String := [
    s!"{class_member} is a Python class.",
    s!"{class_member} has following docstring: {class_docstring}."]
  let b1 := class_parameters_block class_member member_type_details (chunks0, [], s0)
  let l1 := member_type_details.class_parameters.foldl (class_parameter_step class_member) b1
  let b2 := class_methods_block class_member member_type_details l1
  let l2 := member_type_details.class_methods.foldl (class_method_step class_member) b2
  let b3 := class_attributes_block class_member member_type_details l2
  let b4 := class_summary_block class_member member_type_details b3
  let b5 := class_notes_block class_member member_type_details b4
  b5

/-- `generate_class_member_dataset`: its `Dataset(...)` call truncates the
chunk list to `retrieval_chunks[:2]` and the source returns
`(dataset, retrieval_chunks)` with the full list. -/
def generate_class_member_dataset (class_member class_docstring : String)
    (member_type_details : ClassDetails) (s0 : RandomState) :
    Except PyError (Dataset × List String) × RandomState :=
  let core := generate_class_member_core class_member class_docstring member_type_details s0
  ((Dataset.init_with_tuning_pairs (core.1.take 2) core.2.1).map (fun class_member_dataset =>
    (class_member_dataset, core.1)), core.2.2)

/-! ## `generate_function_member_dataset` (`step_2_generation.py` lines 1857-2709) -/

/-- The body of the `for function_parameter in function_parameters` loop of
`generate_function_member_dataset` (lines 1950-2155). -/
def function_parameter_step (function_member : String)
    (acc : List String × List TuningTriplet × RandomState)
    (function_parameter : ParameterDetails) : List String × List TuningTriplet × RandomState :=
  let parameter_name := function_parameter.parameter_name
  let parameter := s!"'{parameter_name}' argument in {function_member}"
  let d1 : List String × List TuningTriplet × RandomState :=
    if function_parameter.parameter_default.isEmptySentinel then
      let function_parameter_defaults_pairs : List (String × String) := [
        (s!"Default value of {parameter}?", s!"{parameter} does not have a default value."),
        (s!"What is the default value for {parameter}?",
          s!"The {parameter} does not come with a default value."),
        (s!"Could you tell me default value of {parameter}?",
          s!"Sure, the {parameter} does not possess a default value."),
        (s!"I'm curious about default value of {parameter}.",
          s!"In response to your curiosity, {parameter} is not assigned a default value."),
        (s!"I'd like to know the default value of {parameter}.",
          s!"To answer your query, {parameter} does not hold a default value."),
        (s!"Can you inform me about the default value of {parameter}?",
          s!"Certainly, {parameter} does not contain a default value.")]
      let a := allocate_tuning_pairs function_parameter_defaults_pairs
        DEFAULT_SPLIT_PROPORTIONS acc.2.2
      (acc.1 ++ [s!"{parameter} has no default value."], acc.2.1 ++ a.1, a.2)
    else
      let parameter_default := pyStr function_parameter.parameter_default
      let function_parameter_defaults_pairs : List (String × String) := [
        (s!"Default value of {parameter}?",
          s!"{parameter} has default value of {parameter_default}."),
        (s!"What is the default value for {parameter}?",
          s!"The default value for {parameter} is {parameter_default}."),
        (s!"Could you tell me default value of {parameter}?",
          s!"Sure, the default value of {parameter} is {parameter_default}."),
        (s!"I would like to know the default value of {parameter}.",
          s!"The {parameter} has a default value of {parameter_default}."),
        (s!"Can you inform me about the default value of {parameter}?",
          s!"Of course, the {parameter} defaults to {parameter_default}."),
        (s!"I'm interested in default value of {parameter}.",
          s!"The default value of the {parameter} is {parameter_default}.")]
      let a := allocate_tuning_pairs function_parameter_defaults_pairs
        DEFAULT_SPLIT_PROPORTIONS acc.2.2
      (acc.1 ++ [s!"{parameter} has the default value of {parameter_default}."],
        acc.2.1 ++ a.1, a.2)
  let d2 : List String × List TuningTriplet × RandomState :=
    if function_parameter.parameter_annot.isEmptySentinel then
      let function_parameter_types_pairs : List (String × String) := [
        (s!"What is type annotation of {parameter}?",
          s!"{parameter} does not have a type annotation."),
        (s!"Can you tell me type annotation of {parameter}?",
          s!"The {parameter} does not have a type annotation."),
        (s!"I'm curious about the type annotation of {parameter}."
            ++ " Can you provide some information?",
          s!"Sure, the {parameter} does not have a type annotation."),
        (s!"Do you have any information on the type annotation of {parameter}?",
          s!"Yes, the {parameter} does not have a type annotation."),
        (s!"Could you inform me about the type annotation of {parameter}?",
          s!"Certainly, {parameter} does not have a type annotation."),
        (s!"I'd like to know the type annotation of {parameter}.",
          s!"The {parameter} you're asking about does not have a type annotation.")]
      let a := allocate_tuning_pairs function_parameter_types_pairs
        DEFAULT_SPLIT_PROPORTIONS d1.2.2
      (d1.1 ++ [s!"Unfortunately, type hint for {parameter} is missing."],
        d1.2.1 ++ a.1, a.2)
    else
      let parameter_annot := pyStr function_parameter.parameter_annot
      let function_parameter_types_pairs : List (String × String) := [
        (s!"What is type annotation of {parameter}?",
          s!"Type annotation of {parameter} is '{parameter_annot}'."),
        (s!"Can you tell me type annotation of {parameter}?",
          s!"Sure, the type annotation of {parameter} is '{parameter_annot}'."),
        (s!"I'm curious about the type annotation of {parameter}. What is it?",
          s!"The type annotation of {parameter} is '{parameter_annot}'."),
        (s!"Do you know type annotation of {parameter}?",
          s!"Yes, the type annotation of {parameter} is '{parameter_annot}'."),
        (s!"Could you inform me about the type annotation of {parameter}?",
          s!"Of course, the type annotation of {parameter} is '{parameter_annot}'."),
        (s!"What's the type annotation for {parameter}?",
          s!"The type annotation for {parameter} is '{parameter_annot}'.")]
      let a := allocate_tuning_pairs function_parameter_types_pairs
        DEFAULT_SPLIT_PROPORTIONS d1.2.2
      (d1.1 ++ [s!"{parameter} has '{parameter_annot}' as type annotation."],
        d1.2.1 ++ a.1, a.2)
  let d3 : List String × List TuningTriplet × RandomState :=
    if !(strTruthy function_parameter.parameter_summary) then
      let function_parameter_summary_pairs : List (String × String) := [
        (s!"What is {parameter} for?",
          s!"Docstring of {function_member} lacks a description for '{parameter_name}'."),
        (s!"Can you explain the purpose of {parameter}?",
          s!"The docstring of {function_member} doesn't provide a description."),
        (s!"I'm not sure what {parameter} does. Can you help?",
          s!"Unfortunately, the docstring of {function_member} doesn't include"
            ++ " a description."),
        (s!"Could you clarify the role of {parameter}?",
          s!"The description is missing in the docstring of {function_member}."),
        (s!"I'm confused about the {parameter}. What does it do?",
          s!"The docstring of {function_member} doesn't contain a description."),
        (s!"What does {parameter} do?",
          s!"There's no description in the docstring of {function_member}.")]
      let a := allocate_tuning_pairs function_parameter_summary_pairs
        DEFAULT_SPLIT_PROPORTIONS d2.2.2
      (d2.1 ++ [s!"{parameter} is not documented in the docstring."], d2.2.1 ++ a.1, a.2)
    else
      let parameter_summary := (function_parameter.parameter_summary).getD ""
      let function_parameter_summary_pairs : List (String × String) := [
        (s!"What is {parameter} for?",
          s!"Based on {function_member} docstring, its role is '{parameter_summary}'."),
        (s!"Can you explain the role of {parameter}?",
          s!"Sure, according to the docstring of {function_member},"
            ++ s!" '{parameter_name}' is used for '{parameter_summary}'."),
        (s!"I'm curious about the {parameter}. What does it do?",
          s!"Well, if you look at the docstring of {function_member}, you'll see that"
            ++ s!" '{parameter_name}' is responsible for '{parameter_summary}'."),
        (s!"Could you tell me the purpose of {parameter}?",
          s!"Of course, the docstring of {function_member} indicates that"
            ++ s!" '{parameter_name}' serves the purpose of '{parameter_summary}'."),
        (s!"What's the function of {parameter}?",
          s!"As per the docstring of {function_member}, '{parameter_name}' functions as:"
            ++ s!" '{parameter_summary}'."),
        (s!"I'd like to know what '{parameter_name}' does in {function_member}.",
          s!"Sure thing, the docstring of {function_member} states that"
            ++ s!" '{parameter_name}' does '{parameter_summary}'.")]
      let a := allocate_tuning_pairs function_parameter_summary_pairs
        DEFAULT_SPLIT_PROPORTIONS d2.2.2
      (d2.1 ++ [s!"In the docstring, {parameter} is described as '{parameter_summary}'."],
        d2.2.1 ++ a.1, a.2)
  d3

def function_parameters_block (function_member : String)
    (member_type_details : FunctionDetails)
    (acc : List String × List TuningTriplet × RandomState) : List String × List TuningTriplet × RandomState :=
    if member_type_details.function_parameters.isEmpty then
      let function_parameters_pairs : List (String × String) := [
        (s!"List various parameters of {function_member}.",
          s!"{function_member} does not take any parameters."),
        (s!"What are the parameters of {function_member}?",
          s!"{function_member} has no parameters."),
        (s!"Could you tell me the parameters that {function_member} takes?",
          s!"{function_member} doesn't require any parameters."),
        (s!"I need to know the parameters for {function_member}.",
          s!"There are no parameters for {function_member}."),
        (s!"Can you list the parameters for {function_member}?",
          s!"Actually, {function_member} doesn't have any parameters."),
        (s!"Please provide the parameters of {function_member}.",
          s!"Sorry, but {function_member} does not have any parameters.")]
      let a := allocate_tuning_pairs function_parameters_pairs DEFAULT_SPLIT_PROPORTIONS acc.2.2
      (acc.1 ++ [s!"{function_member} takes no parameters."], acc.2.1 ++ a.1, a.2)
    else
      let function_parameter_names := format_enumeration
        (member_type_details.function_parameters.map (fun p => p.parameter_details))
      let function_parameters_pairs : List (String × String) := [
        (s!"List various parameters of {function_member}.",
          s!"Different parameters of {function_member} are as follows:"
            ++ s!" {function_parameter_names}."),
        (s!"What are the different parameters of {function_member}?",
          s!"{function_member} has the following parameters: {function_parameter_names}."),
        (s!"Could you tell me the parameters of {function_member}?",
          s!"Sure, the parameters of {function_member} are: {function_parameter_names}."),
        (s!"I need to know the parameters of {function_member}.",
          s!"The parameters of {function_member} are: {function_parameter_names}."),
        (s!"Can you list the parameters for {function_member}?",
          s!"Yes, the parameters for {function_member} are: {function_parameter_names}."),
        (s!"Please provide the parameters of {function_member}.",
          s!"Parameters of {function_member} are as follows: {function_parameter_names}.")]
      let a := allocate_tuning_pairs function_parameters_pairs DEFAULT_SPLIT_PROPORTIONS acc.2.2
      (acc.1
        ++ [s!"{function_member} takes the following parameters: {function_parameter_names}"],
        acc.2.1 ++ a.1, a.2)

def function_return_type_block (function_member : String)
    (member_type_details : FunctionDetails)
    (acc : List String × List TuningTriplet × RandomState) : List String × List TuningTriplet × RandomState :=
    if member_type_details.function_returns.returns_annot.isEmptySentinel then
      let function_return_type_pairs : List (String × String) := [
        (s!"What is the return type annotation of {function_member}?",
          s!"{function_member} lacks a return type annotation. It may still return though."),
        (s!"Can you tell me the return type annotation of {function_member}?",
          s!"The function {function_member} does not have a return type annotation."
            ++ " However, it may still return."),
        (s!"I'm curious about return type annotation of {function_member}. What is it?",
          s!"Well, {function_member} doesn't have a return type annotation."
            ++ " But, it could still return."),
        (s!"Do you know the return type annotation of {function_member}?",
          s!"Actually, {function_member} doesn't come with a return type annotation."
            ++ " It's possible that it still returns though."),
        (s!"Could you inform me about the return type annotation of {function_member}?",
          s!"Sure, {function_member} is missing a return type annotation."
            ++ " It might still return though."),
        (s!"What's the return type annotation for {function_member}?",
          s!"It appears that {function_member} is without a return type annotation."
            ++ " It may still have a return.")]
      let a := allocate_tuning_pairs function_return_type_pairs
        DEFAULT_SPLIT_PROPORTIONS acc.2.2
      (acc.1
        ++ [s!"{function_member} has no return annotation, but its return can still be non-null."],
        acc.2.1 ++ a.1, a.2)
    else
      let returns_annot := pyStr member_type_details.function_returns.returns_annot
      let function_return_type_pairs : List (String × String) := [
        (s!"What is the return type annotation of {function_member}?",
          s!"Return type annotation for {function_member} is '{returns_annot}'."),
        (s!"Can you tell me the return type annotation of {function_member}?",
          s!"Sure, return type annotation for {function_member} is '{returns_annot}'."),
        (s!"I need to know the return type annotation of {function_member}.",
          s!"The return type annotation for {function_member} is '{returns_annot}'."),
        (s!"Do you know the return type annotation of {function_member}?",
          s!"Yes, return type annotation for {function_member} is '{returns_annot}'."),
        (s!"Could you inform me about the return type annotation of {function_member}?",
          s!"Of course, the return type for {function_member} is '{returns_annot}'."),
        (s!"I'm curious about the return type annotation of {function_member}.",
          s!"The return type annotation for {function_member} is '{returns_annot}'.")]
      let a := allocate_tuning_pairs function_return_type_pairs
        DEFAULT_SPLIT_PROPORTIONS acc.2.2
      (acc.1 ++ [s!"Return of {function_member} is annotated as '{returns_annot}'."],
        acc.2.1 ++ a.1, a.2)

def function_return_summary_block (function_member : String)
    (member_type_details : FunctionDetails)
    (acc : List String × List TuningTriplet × RandomState) : List String × List TuningTriplet × RandomState :=
    if !(strTruthy member_type_details.function_returns.returns_summary) then
      let function_return_summary_pairs : List (String × String) := [
        (s!"What does {function_member} return?",
          s!"Docstring of {function_member} does not describe its return."),
        (s!"Can you tell me what {function_member} returns?",
          s!"Docstring of {function_member} doesn't provide information about its return."),
        (s!"Do you know the return of {function_member}?",
          s!"Unfortunately, docstring of {function_member} doesn't specify what it returns."),
        (s!"I'm curious about what {function_member} returns. Can you help?",
          s!"I'm sorry, but the docstring of {function_member} doesn't clarify its return."),
        (s!"What's the return of {function_member}?",
          s!"The return of {function_member} is not described in its docstring."),
        (s!"Could you inform me about the return of {function_member}?",
          s!"Regrettably, the docstring of {function_member} doesn't detail its return.")]
      let a := allocate_tuning_pairs function_return_summary_pairs
        DEFAULT_SPLIT_PROPORTIONS acc.2.2
      (acc.1 ++ [s!"{function_member} does not document its return."], acc.2.1 ++ a.1, a.2)
    else
      let returns_summary := (member_type_details.function_returns.returns_summary).getD ""
      let function_return_summary_pairs : List (String × String) := [
        (s!"What does {function_member} return?",
          s!"Based on {function_member} docstring, the return contains: '{returns_summary}'."),
        (s!"Can you tell me what {function_member} returns?",
          s!"Sure, as per docstring of {function_member}, it returns: '{returns_summary}'."),
        (s!"I'm curious about what {function_member} returns. Can you help?",
          s!"Absolutely! The docstring of {function_member} indicates that it returns:"
            ++ s!" '{returns_summary}'."),
        (s!"Do you know what {function_member} returns?",
          s!"Yes, the docstring of {function_member} states that it returns:"
            ++ s!" '{returns_summary}'."),
        (s!"I'd like to know what {function_member} returns.",
          s!"Of course, the docstring of {function_member} reveals that its return contains:"
            ++ s!" '{returns_summary}'."),
        (s!"Could you inform me about the return of {function_member}?",
          s!"Certainly, the docstring of {function_member} specifies that it returns:"
            ++ s!" '{returns_summary}'.")]
      let a := allocate_tuning_pairs function_return_summary_pairs
        DEFAULT_SPLIT_PROPORTIONS acc.2.2
      (acc.1
        ++ [s!"Based on docstring, return of {function_member} is as follows:"
          ++ s!" '{returns_summary}'."],
        acc.2.1 ++ a.1, a.2)

def function_summary_block (function_member : String)
    (member_type_details : FunctionDetails)
    (acc : List String × List TuningTriplet × RandomState) : List String × List TuningTriplet × RandomState :=
    if !(strTruthy member_type_details.function_summary) then
      let function_summary_pairs : List (String × String) := [
        (s!"Summarise role of {function_member} in short.",
          s!"{function_member} docstring lacks a summary of its objective."),
        (s!"Can you briefly explain the role of {function_member}?",
          s!"The docstring of {function_member} doesn't provide its purpose."),
        (s!"What is the purpose of {function_member} as per its docstring?",
          s!"The docstring of {function_member} doesn't clearly state its purpose."),
        (s!"Could you provide a summary of objective of {function_member}?",
          s!"The objective of {function_member} is not summarised in its docstring."),
        (s!"What does {function_member} do according to its docstring?",
          s!"According to its docstring, role of {function_member} is not summarised.")]
      let a := allocate_tuning_pairs function_summary_pairs DEFAULT_SPLIT_PROPORTIONS acc.2.2
      (acc.1 ++ [s!"Documentation for {function_member} is missing."], acc.2.1 ++ a.1, a.2)
    else
      let function_summary := (member_type_details.function_summary).getD ""
      let function_summary_pairs : List (String × String) := [
        (s!"Summarise role of {function_member} in short.",
          s!"Based on docstring, objective of {function_member} is to: '{function_summary}'."),
        (s!"Can you briefly explain the role of {function_member}?",
          s!"Sure, according to the docstring, the purpose of {function_member} is:"
            ++ s!" '{function_summary}'."),
        (s!"What does {function_member} do, in a nutshell?",
          s!"In a nutshell, {function_member} is designed to: '{function_summary}'."),
        (s!"Could you provide a short summary of role of {function_member}?",
          s!"Certainly, from docstring, {function_member} aims to: '{function_summary}'."),
        (s!"I need a brief explanation of what {function_member} does.",
          s!"Of course, {function_member} is intended to: '{function_summary}'."),
        (s!"In brief, what is the role of {function_member}?",
          s!"Briefly, the role of {function_member} is to: '{function_summary}',"
            ++ " according to the docstring.")]
      let a := allocate_tuning_pairs function_summary_pairs DEFAULT_SPLIT_PROPORTIONS acc.2.2
      (acc.1 ++ [s!"{function_member} documents itself as follows: '{function_summary}'."],
        acc.2.1 ++ a.1, a.2)

def function_raises_block (function_member : String)
    (member_type_details : FunctionDetails)
    (acc : List String × List TuningTriplet × RandomState) : List String × List TuningTriplet × RandomState :=
    if !(optListTruthy member_type_details.function_raises) then
      let function_raise_types_pairs : List (String × String) := [
        (s!"Does {function_member} raise any specific exception?",
          s!"Docstring of {function_member} does not mention any specific exceptions."),
        (s!"Are there any specific exceptions that {function_member} raises?",
          s!"No specific exceptions are mentioned in the docstring of {function_member}."),
        (s!"Can you tell me if {function_member} raises any specific exceptions?",
          s!"According to docstring, {function_member} does not raise exceptions."),
        (s!"I want to know if {function_member} raises any specific exceptions."
            ++ " Can you confirm?",
          s!"I can confirm that docstring of {function_member} does not mention exceptions."),
        (s!"Could {function_member} possibly raise any specific exceptions?",
          s!"The docstring of {function_member} does not indicate that"
            ++ " it raises any specific exceptions."),
        (s!"Is it possible for {function_member} to raise any specific exceptions?",
          s!"The docstring of {function_member} does not suggest that"
            ++ " it raises any specific exceptions.")]
      let a := allocate_tuning_pairs function_raise_types_pairs
        DEFAULT_SPLIT_PROPORTIONS acc.2.2
      (acc.1 ++ [s!"{function_member} does not document any specific exceptions in the docstring."],
        acc.2.1 ++ a.1, a.2)
    else
      let function_raise_types := format_enumeration
        ((member_type_details.function_raises.getD []).map (fun r => r.raises_details))
      let function_raise_types_pairs : List (String × String) := [
        (s!"Does {function_member} raise any specific exception?",
          s!"Based on docstring of {function_member}, it can raise the following:"
            ++ s!" {function_raise_types}."),
        (s!"Can you tell me if {function_member} raises any specific exceptions?",
          s!"Yes, according to docstring of {function_member}, it can raise these exceptions:"
            ++ s!" {function_raise_types}."),
        (s!"What exceptions, if any, does {function_member} raise?",
          s!"{function_member} can raise these exceptions as per its docstring:"
            ++ s!" {function_raise_types}."),
        (s!"I need to know if {function_member} throws any specific exceptions."
            ++ " Can you help?",
          s!"Sure, {function_member} can throw following exceptions according to docstring:"
            ++ s!" {function_raise_types}."),
        (s!"Could you inform me about any specific exceptions that"
            ++ s!" {function_member} might raise?",
          s!"Certainly, the docstring of {function_member} indicates that"
            ++ s!" it can raise these exceptions: {function_raise_types}."),
        (s!"I'm curious about the exceptions that {function_member} might throw."
            ++ " Do you have any information?",
          s!"Yes, the docstring of {function_member} suggests that"
            ++ s!" it can throw the following exceptions: {function_raise_types}.")]
      let a := allocate_tuning_pairs function_raise_types_pairs
        DEFAULT_SPLIT_PROPORTIONS acc.2.2
      (acc.1
        ++ [s!"From docstring, {function_member} can raise the following:"
          ++ s!" {function_raise_types}"],
        acc.2.1 ++ a.1, a.2)

def function_warns_block (function_member : String)
    (member_type_details : FunctionDetails)
    (acc : List String × List TuningTriplet × RandomState) : List String × List TuningTriplet × RandomState :=
    if !(optListTruthy member_type_details.function_warns) then
      let function_warn_types_pairs : List (String × String) := [
        (s!"Does {function_member} throw any specific warnings?",
          s!"Docstring of {function_member} lacks any mention of specific warnings."),
        (s!"Are there any specific warnings that {function_member} throws?",
          s!"There are no specific warnings mentioned in docstring of {function_member}."),
        (s!"Can you tell me if {function_member} throws any specific warnings?",
          s!"According to the docstring of {function_member},"
            ++ " it doesn't throw any specific warnings."),
        (s!"I want to know if {function_member} throws any specific warnings."
            ++ " Can you help?",
          s!"Sure, I checked the docstring of {function_member} and"
            ++ " found no mention of specific warnings."),
        (s!"Could you check if {function_member} throws any specific warnings?",
          s!"I've checked the docstring of {function_member} and"
            ++ " it doesn't mention any specific warnings."),
        (s!"Is it possible that {function_member} throws any specific warnings?",
          s!"Based on the docstring of {function_member},"
            ++ " it doesn't seem to throw any specific warnings.")]
      let a := allocate_tuning_pairs function_warn_types_pairs
        DEFAULT_SPLIT_PROPORTIONS acc.2.2
      (acc.1 ++ [s!"Mention of any warnings is missing in docstring of {function_member}."],
        acc.2.1 ++ a.1, a.2)
    else
      let function_warn_types := format_enumeration
        ((member_type_details.function_warns.getD []).map (fun w => w.warns_details))
      let function_warn_types_pairs : List (String × String) := [
        (s!"Does {function_member} throw any specific warnings?",
          s!"Based on the docstring, {function_member} can throw the following warnings:"
            ++ s!" {function_warn_types}."),
        (s!"Can you tell me if {function_member} throws any specific warnings?",
          s!"Yes, according to docstring, {function_member} may throw these warnings:"
            ++ s!" {function_warn_types}."),
        (s!"I'm curious, does {function_member} generate any particular warnings?",
          s!"Indeed, docstring indicates that {function_member} can generate these warnings:"
            ++ s!" {function_warn_types}."),
        (s!"What specific warnings, if any, does {function_member} throw?",
          s!"{function_member} throws the following warnings as per the docstring:"
            ++ s!" {function_warn_types}."),
        (s!"Could {function_member} possibly throw any specific warnings?",
          s!"Yes, it could. Docstring of {function_member} mentions these specific warnings:"
            ++ s!" {function_warn_types}."),
        (s!"Are there any specific warnings that {function_member} throws?",
          s!"Yes, there are. The docstring for {function_member} lists following warnings:"
            ++ s!" {function_warn_types}.")]
      let a := allocate_tuning_pairs function_warn_types_pairs
        DEFAULT_SPLIT_PROPORTIONS acc.2.2
      (acc.1 ++ [s!"{function_member} documents the following warnings: {function_warn_types}"],
        acc.2.1 ++ a.1, a.2)

def function_notes_block (function_member : String)
    (member_type_details : FunctionDetails)
    (acc : List String × List TuningTriplet × RandomState) : List String × List TuningTriplet × RandomState :=
    if !(strTruthy member_type_details.function_notes) then
      let function_notes_pairs : List (String × String) := [
        (s!"Is there any specific details for {function_member} to be aware of?",
          s!"Docstring of {function_member} lacks any notes on specific details."),
        (s!"Are there any particular details I should know about {function_member}?",
          s!"There are no specific details noted in the docstring of {function_member}."),
        (s!"What should I be aware of when using {function_member}?",
          s!"The docstring of {function_member} does not contain any details to be aware of."),
        (s!"Could you tell me if there are any specific details for {function_member}?",
          s!"No specific details are mentioned in the docstring of {function_member}."),
        (s!"I'm curious if there are any specific details about {function_member}?",
          s!"The docstring of {function_member} does not provide any specific details."),
        (s!"Do I need to be aware of any specific details for {function_member}?",
          s!"The docstring of {function_member} does not include any specific details.")]
      let a := allocate_tuning_pairs function_notes_pairs DEFAULT_SPLIT_PROPORTIONS acc.2.2
      (acc.1 ++ [s!"{function_member} has no specific notes in the docstring."],
        acc.2.1 ++ a.1, a.2)
    else
      let function_notes := (member_type_details.function_notes).getD ""
      let function_notes_pairs : List (String × String) := [
        (s!"Is there any specific details for {function_member} to be aware of?",
          s!"Docstring of {function_member} highlights the following: '{function_notes}'."),
        (s!"What should I know about {function_member}?",
          "You should be aware that docstring includes the following details:"
            ++ s!" '{function_notes}'."),
        (s!"Could you provide some details about {function_member}?",
          s!"Sure, the docstring of {function_member} provides the following information:"
            ++ s!" '{function_notes}'."),
        (s!"What are the important details of {function_member}?",
          s!"The important details of {function_member} are highlighted in its docstring:"
            ++ s!" '{function_notes}'."),
        (s!"Can you tell me more about {function_member}?",
          s!"Of course, the docstring of {function_member} contains the following details:"
            ++ s!" '{function_notes}'."),
        (s!"I need information about {function_member}.",
          s!"The docstring of {function_member} contains the following information:"
            ++ s!" '{function_notes}'.")]
      let a := allocate_tuning_pairs function_notes_pairs DEFAULT_SPLIT_PROPORTIONS acc.2.2
      (acc.1 ++ [s!"Docstring for {function_member} has following notes: '{function_notes}'."],
        acc.2.1 ++ a.1, a.2)

def function_references_block (function_member : String)
    (member_type_details : FunctionDetails)
    (acc : List String × List TuningTriplet × RandomState) : List String × List TuningTriplet × RandomState :=
    if !(strTruthy member_type_details.function_references) then
      let function_references_pairs : List (String × String) := [
        (s!"Is there any reference for {function_member}?",
          s!"Documentation for {function_member} contains no references."),
        (s!"Can I find any references in the documentation for {function_member}?",
          s!"No, the documentation for {function_member} does not contain any references."),
        (s!"Does the documentation for {function_member} include any references?",
          s!"No, there are no references in the documentation for {function_member}."),
        (s!"Are there references available in the {function_member} documentation?",
          s!"No, the {function_member} documentation does not include any references."),
        (s!"I'm looking for references in {function_member} documentation. Are there any?",
          s!"Unfortunately, the documentation for {function_member} contains no references."),
        (s!"Could you tell me if there are any references for {function_member}?",
          s!"I'm sorry, but documentation for {function_member} lacks any references.")]
      let a := allocate_tuning_pairs function_references_pairs
        DEFAULT_SPLIT_PROPORTIONS acc.2.2
      (acc.1 ++ [s!"{function_member} documents no references in its docstring."],
        acc.2.1 ++ a.1, a.2)
    else
      let function_references := (member_type_details.function_references).getD ""
      let function_references_pairs : List (String × String) := [
        (s!"Is there any reference for {function_member}?",
          s!"The docstring links the following: '{function_references}'."),
        (s!"Can you provide a reference for {function_member}?",
          s!"Sure, the docstring provides the following reference: '{function_references}'."),
        (s!"Where can I find a reference for {function_member}?",
          s!"You can find it in the docstring, which links to: '{function_references}'."),
        (s!"Could you point me to the reference for {function_member}?",
          s!"Of course, the docstring points to these reference: '{function_references}'."),
        (s!"I'm looking for a reference for {function_member}. Can you help?",
          s!"Absolutely, the docstring links to this reference: '{function_references}'."),
        (s!"What's the reference for {function_member}?",
          s!"The reference for that is in the docstring: '{function_references}'.")]
      let a := allocate_tuning_pairs function_references_pairs
        DEFAULT_SPLIT_PROPORTIONS acc.2.2
      (acc.1 ++ [s!"{function_member} list the following references: {function_references}"],
        acc.2.1 ++ a.1, a.2)

def function_examples_block (function_member : String)
    (member_type_details : FunctionDetails)
    (acc : List String × List TuningTriplet × RandomState) : List String × List TuningTriplet × RandomState :=
    if !(strTruthy member_type_details.function_examples) then
      let function_examples_pairs : List (String × String) := [
        (s!"Is there any example for {function_member}?",
          s!"Docstring for {function_member} lacks any examples."),
        (s!"Can I find an example for {function_member} in the docstring?",
          s!"Unfortunately, docstring for {function_member} does not contain any examples."),
        (s!"Does the docstring for {function_member} include any examples?",
          s!"No, the docstring for {function_member} does not include any examples."),
        (s!"I'm looking for an example of {function_member} in docstring, is there one?",
          s!"I'm sorry, but docstring for {function_member} does not provide any examples."),
        (s!"Are there any examples provided in the docstring for {function_member}?",
          s!"No examples are provided in the docstring for {function_member}."),
        (s!"Could you tell me if there's an example for {function_member} in docstring?",
          s!"I regret to inform you that {function_member} documents no examples.")]
      let a := allocate_tuning_pairs function_examples_pairs DEFAULT_SPLIT_PROPORTIONS acc.2.2
      (acc.1 ++ [s!"Documentation of {function_member} lacks any examples."],
        acc.2.1 ++ a.1, a.2)
    else
      let function_examples := (member_type_details.function_examples).getD ""
      let function_examples_pairs : List (String × String) := [
        (s!"Is there any example for {function_member}?",
          s!"Documentation of {function_member} contains these examples:"
            ++ s!" '{function_examples}'."),
        (s!"Can you provide an example of {function_member}?",
          s!"Sure, you can find examples of {function_member} in its documentation:"
            ++ s!" '{function_examples}'."),
        (s!"I'm looking for examples of {function_member}, can you help?",
          s!"Absolutely, examples for {function_member} are available in its documentation:"
            ++ s!" '{function_examples}'."),
        (s!"Where can I find examples for {function_member}?",
          s!"You can find examples for {function_member} in its documentation:"
            ++ s!" '{function_examples}'."),
        (s!"Could you show me some examples of {function_member}?",
          s!"Of course, the documentation of {function_member} includes these examples:"
            ++ s!" '{function_examples}'."),
        (s!"I need examples for {function_member}, where can I find them?",
          s!"You can find examples for {function_member} in its documentation:"
            ++ s!" '{function_examples}'.")]
      let a := allocate_tuning_pairs function_examples_pairs DEFAULT_SPLIT_PROPORTIONS acc.2.2
      (acc.1
        ++ [s!"Docstring of {function_member} contains following examples:"
          ++ s!" '{function_examples}'."],
        acc.2.1 ++ a.1, a.2)

def generate_function_member_core (function_member function_docstring : String)
    (member_type_details : FunctionDetails) (s0 : RandomState) :
    List String × List TuningTriplet × RandomState :=
  let chunks0 : List String := [
    s!"{function_member} is a Python function.",
    s!"{function_member} has following docstring: {function_docstring}."]
  let b1 := function_parameters_block function_member member_type_details (chunks0, [], s0)
  let l1 := member_type_details.function_parameters.foldl
    (function_parameter_step function_member) b1
  let b2 := function_return_type_block function_member member_type_details l1
  let b3 := function_return_summary_block function_member member_type_details b2
  let b4 := function_summary_block function_member member_type_details b3
  let b5 := function_raises_block function_member member_type_details b4
  let b6 := function_warns_block function_member member_type_details b5
  let b7 := function_notes_block function_member member_type_details b6
  let b8 := function_references_block function_member member_type_details b7
  let b9 := function_examples_block function_member member_type_details b8
  b9

/-- `generate_function_member_dataset`: its `Dataset(...)` call truncates the
chunk list to `retrieval_chunks[:2]` and the source returns
`(dataset, retrieval_chunks)` with the full list. -/
def generate_function_member_dataset (function_member function_docstring : String)
    (member_type_details : FunctionDetails) (s0 : RandomState) :
    Except PyError (Dataset × List String) × RandomState :=
  let core := generate_function_member_core function_member function_docstring
    member_type_details s0
  ((Dataset.init_with_tuning_pairs (core.1.take 2) core.2.1).map (fun function_member_dataset =>
    (function_member_dataset, core.1)), core.2.2)

/-! ## `generate_member_dataset` (`step_2_generation.py` lines 2712-2957) -/

/-- `generate_member_dataset(member_details)`: generic member facts, then —
for a classified member — the kind fact and the delegated kind-specific
dataset.  The source returns `(member_dataset,)` or
`(member_dataset, member_type_dataset)`; the tuple is a list here, inside
the `Except` tracking the raised exceptions. -/
def generate_member_dataset (member_details : MemberDetails) (s0 : RandomState) :
    Except PyError (List Dataset) × RandomState :=
  let member_name := member_details.member_name
  let member_full_name := member_details.member_qualified_name
  let member_module := member_details.member_module
  let member := s!"'{member_name}' object"
  let module_parent_pairs : List (String × String) := [
    (s!"What is the parent module of {member}?",
      s!"'{member_module}' is the name of its parent module."),
    (s!"Can you tell me the parent module of {member}?",
      s!"Sure, the parent module of {member} is '{member_module}'."),
    (s!"I'm trying to find the parent module of {member}, can you help?",
      s!"Of course, parent module of {member} is '{member_module}'."),
    (s!"Do you know the parent module of {member}?",
      s!"Yes, the parent module of {member} is '{member_module}'."),
    (s!"I need to know the parent module of {member}, can you provide that?",
      s!"Absolutely, parent module of {member} is '{member_module}'."),
    (s!"Could you inform me about the parent module of {member}?",
      s!"Certainly, '{member_module}' is parent module of {member}.")]
  let a1 := allocate_tuning_pairs module_parent_pairs DEFAULT_SPLIT_PROPORTIONS s0
  let chunks1 : List String := [s!"{member} is part of parent module {member_module}."]
  let member_full_name_pairs : List (String × String) := [
    (s!"What is the full name of {member}?",
      s!"'{member_full_name}' is its fully qualified name."),
    (s!"Can you tell me the full name of the {member}?",
      s!"Sure, the fully qualified name of {member} is '{member_full_name}'."),
    (s!"I need to know the full name of {member}. Can you help?",
      s!"Of course, the full name of {member} is '{member_full_name}'."),
    (s!"What's the fully qualified name for the {member}?",
      s!"The fully qualified name for {member} is '{member_full_name}'."),
    (s!"Could you provide the full name of the {member}?",
      s!"Certainly, the full name of the {member} is '{member_full_name}'."),
    (s!"I'm looking for the full name of {member}. What is it?",
      s!"The full name of {member} is '{member_full_name}'.")]
  let a2 := allocate_tuning_pairs member_full_name_pairs DEFAULT_SPLIT_PROPORTIONS a1.2
  let chunks2 := chunks1 ++ [s!"Full name of {member} is '{member_full_name}'."]
  let member_hierarchy := format_enumeration member_details.member_hierarchy
  let member_hierarchy_pairs : List (String × String) := [
    (s!"What is the hierarchy of {member}?",
      s!"The hierarchy of {member} is as follows: {member_hierarchy}."),
    (s!"Can you explain the hierarchy of the {member}?",
      s!"Sure, the hierarchy of the {member} is: {member_hierarchy}."),
    (s!"Could you tell me the hierarchy of {member}?",
      s!"Of course, the hierarchy of {member} is: {member_hierarchy}."),
    (s!"I would like to know the hierarchy of {member}. Can you provide that?",
      s!"Absolutely, the hierarchy of {member} is: {member_hierarchy}."),
    (s!"Please provide the hierarchy of {member}.",
      s!"The hierarchy of {member} is: {member_hierarchy}."),
    (s!"I'm interested in the hierarchy of {member}. Could you share it?",
      s!"Sure, the hierarchy of {member} is: {member_hierarchy}.")]
  let a3 := allocate_tuning_pairs member_hierarchy_pairs DEFAULT_SPLIT_PROPORTIONS a2.2
  let chunks3 := chunks2 ++ [s!"Hierarchy of {member} is as follows: {member_hierarchy}."]
  let b4 : List String × List TuningTriplet × RandomState :=
    if member_details.member_docstring == "" then
      let member_documentation_pairs : List (String × String) := [
        (s!"What is the documentation of {member}?",
          s!"{member} does not have any documentation."),
        (s!"Can you provide the documentation for the {member}?",
          s!"Sorry, the {member} does not have any documentation."),
        (s!"Is there any documentation available for the {member}?",
          s!"No, there is no documentation available for the {member}."),
        (s!"Could you show me the documentation of the {member}?",
          s!"Unfortunately, the {member} does not have any documentation."),
        (s!"I'm looking for the documentation of {member}. Can you help?",
          s!"I'm sorry, but the {member} does not have any documentation.")]
      let a4 := allocate_tuning_pairs member_documentation_pairs DEFAULT_SPLIT_PROPORTIONS a3.2
      (chunks3 ++ [s!"Unfortunately, {member} currently does not have any documentation."],
        a1.1 ++ a2.1 ++ a3.1 ++ a4.1, a4.2)
    else
      let member_docstring := member_details.member_docstring
      let member_documentation_pairs : List (String × String) := [
        (s!"What does {member} do?",
          s!"Its documentation is as follows: '{member_docstring}'."),
        (s!"Can you explain the function of the {member}?",
          s!"Sure, here is its documentation: '{member_docstring}'."),
        (s!"I'm not sure what {member} does. Can you clarify?",
          s!"Of course, here's its documentation for clarification: '{member_docstring}'."),
        (s!"Could you tell me about the {member}?",
          s!"Certainly, its documentation is: '{member_docstring}'."),
        (s!"I need information on the {member}.",
          s!"Here's the documentation you need: '{member_docstring}'."),
        (s!"What's the purpose of the {member}?",
          s!"The purpose is described in its documentation: '{member_docstring}'.")]
      let a4 := allocate_tuning_pairs member_documentation_pairs DEFAULT_SPLIT_PROPORTIONS a3.2
      (chunks3 ++ [s!"The following is the documentation of {member}: '{member_docstring}'."],
        a1.1 ++ a2.1 ++ a3.1 ++ a4.1, a4.2)
  match member_details.member_type_details with
  | none =>
    let member_retrieval_chunks := s!"'{member_name}' is a Python object." :: b4.1
    ((Dataset.init_with_tuning_pairs member_retrieval_chunks b4.2.1).map
      (fun member_dataset => [member_dataset]), b4.2.2)
  | some member_type_details =>
    let member_type_value := member_type_details.type_value
    let member_type_pairs : List (String × String) := [
      (s!"What is the type of {member}?", s!"{member} is of '{member_type_value}' type."),
      (s!"Can you tell me the type of the {member}?",
        s!"Sure, the {member} is of '{member_type_value}' type."),
      (s!"I would like to know the type of {member}. Can you help?",
        s!"Absolutely, the {member} is of '{member_type_value}' type."),
      (s!"Do you know the type of {member}?",
        s!"Yes, the {member} is of '{member_type_value}' type."),
      (s!"Could you inform me about the type of {member}?",
        s!"Of course, the {member} is of '{member_type_value}' type."),
      (s!"I'm curious about type of {member}. Can you provide some information?",
        s!"Certainly, the {member} is of '{member_type_value}' type.")]
    let a5 := allocate_tuning_pairs member_type_pairs DEFAULT_SPLIT_PROPORTIONS b4.2.2
    let member_retrieval_chunks := pyInsertBeforeLast b4.1
      s!"'{member_name}' is a Python {member_type_value}."
    let member_tuning_pairs := b4.2.1 ++ a5.1
    let member_docstring := member_details.member_docstring
    let delegated :
        Except PyError (Dataset × List String) × RandomState :=
      match member_type_details with
      | .enumD details =>
        generate_enum_member_dataset s!"'{member_name}' enum" member_docstring details a5.2
      | .classD details =>
        generate_class_member_dataset s!"'{member_name}' class" member_docstring details a5.2
      | .functionD details =>
        generate_function_member_dataset s!"'{member_name}' function" member_docstring
          details a5.2
    match delegated with
    | (.error e, s1) => (.error e, s1)
    | (.ok type_result, s1) =>
      ((Dataset.init_with_tuning_pairs (member_retrieval_chunks ++ type_result.2)
        member_tuning_pairs).map
        (fun member_dataset => [member_dataset, type_result.1]), s1)

/-! ## Dataset assembly and serialization (`orchestrate_generation.py`) -/

/-- `JSONDocument.model_validate(document.model_dump())`: a `Document` and a
`JSONDocument` carry the same four fields, so the dump/validate pair copies
them verbatim — in particular the `context` is copied, never recomputed. -/
def document_model_dump_validate (document : Document) : JSONDocument :=
  { context := document.context
  , question := document.question
  , answer := document.answer
  , split := document.split }

/-- `generate_json_dataset(raw_datasets)`: one pass extending the flat
retrieval-document list with each dataset's chunks and the flat
tuning-document list with each dataset's documents (converted through
`model_dump`/`model_validate`). -/
def generate_json_dataset (raw_datasets : List Dataset) : JSONDataset :=
  let flat := raw_datasets.foldl (fun acc dataset =>
    (acc.1 ++ dataset.retrieval_chunks,
      acc.2 ++ dataset.tuning_documents.map (fun document =>
        document_model_dump_validate document)))
    ([], [])
  { retrieval_documents := flat.1, tuning_documents := flat.2 }

/-- A JSON value, as far as the persisted dataset schema needs: strings,
arrays and objects. -/
inductive JValue where
  | str (s : String)
  | arr (items : List JValue)
  | obj (fields : List (String × JValue))
deriving Repr

/-- `model_dump()` of a `JSONDocument` (the split enum dumps as its value
string). -/
def JSONDocument.model_dump (d : JSONDocument) : JValue :=
  .obj [("context", .str d.context), ("question", .str d.question),
    ("answer", .str d.answer), ("split", .str d.split.value)]

/-- `store_json_dataset(json_dataset, file_path)`, at the JSON-value level:
the value `json.dump` writes to the file.  (`json.dump` followed by
`json.load` is the identity on such trees of strings, arrays and objects,
so the file itself is not modelled.) -/
def store_json_dataset (json_dataset : JSONDataset) : JValue :=
  .obj [("retrieval_documents", .arr (json_dataset.retrieval_documents.map JValue.str)),
    ("tuning_documents", .arr (json_dataset.tuning_documents.map JSONDocument.model_dump))]

/-- Pydantic validation of one required field of a JSON object (extra keys
are ignored, a missing required key fails). -/
def json_field (fields : List (String × JValue)) (name : String) : Except PyError JValue :=
  match fields.lookup name with
  | some v => .ok v
  | none => .error .validationError

/-- Pydantic validation of a `str` field. -/
def parse_json_string : JValue → Except PyError String
  | .str s => .ok s
  | _ => .error .validationError

/-- Pydantic validation of a `SplitName` field from its value string. -/
def parse_split : JValue → Except PyError SplitName
  | .str s =>
    if s == "train" then .ok .TRAIN
    else if s == "validation" then .ok .VALIDATION
    else if s == "test" then .ok .TEST
    else .error .validationError
  | _ => .error .validationError

/-- Pydantic validation of a `JSONDocument` from a JSON value. -/
def parse_json_document (v : JValue) : Except PyError JSONDocument :=
  match v with
  | .obj fields => do
    let context ← json_field fields "context" >>= parse_json_string
    let question ← json_field fields "question" >>= parse_json_string
    let answer ← json_field fields "answer" >>= parse_json_string
    let split ← json_field fields "split" >>= parse_split
    .ok { context := context, question := question, answer := answer, split := split }
  | _ => .error .validationError

/-- `load_json_dataset(file_path)`, at the JSON-value level:
`JSONDataset.model_validate` over the loaded value, with full field and
type validation. -/
def load_json_dataset (v : JValue) : Except PyError JSONDataset :=
  match v with
  | .obj fields => do
    let rd ← json_field fields "retrieval_documents"
    let retrieval_documents ←
      match rd with
      | .arr items => items.mapM parse_json_string
      | _ => .error .validationError
    let td ← json_field fields "tuning_documents"
    let tuning_documents ←
      match td with
      | .arr items => items.mapM parse_json_document
      | _ => .error .validationError
    .ok { retrieval_documents := retrieval_documents, tuning_documents := tuning_documents }
  | _ => .error .validationError

/-! ## Facts about the generators' `Dataset(...)` calls -/

theorem generate_package_dataset_raises (package_contents : PackageDetails)
    (s : RandomState) :
    (generate_package_dataset package_contents s).1 = .error .validationError := rfl

theorem generate_module_dataset_raises (module_contents : ModuleDetails)
    (s : RandomState) :
    (generate_module_dataset module_contents s).1 = .error .validationError := rfl

theorem generate_enum_member_dataset_raises (a b : String) (d : EnumDetails)
    (s : RandomState) :
    (generate_enum_member_dataset a b d s).1 = .error .validationError := rfl

theorem generate_class_member_dataset_raises (a b : String) (d : ClassDetails)
    (s : RandomState) :
    (generate_class_member_dataset a b d s).1 = .error .validationError := rfl

theorem generate_function_member_dataset_raises (a b : String) (d : FunctionDetails)
    (s : RandomState) :
    (generate_function_member_dataset a b d s).1 = .error .validationError := rfl

theorem generate_member_dataset_raises (member_details : MemberDetails)
    (s : RandomState) :
    (generate_member_dataset member_details s).1 = .error .validationError := by
  rcases member_details with ⟨n, q, h, m, d, t⟩
  cases t with
  | none => rfl
  | some v => cases v <;> rfl

/-- C2: the claim says `generate_package_dataset`, `generate_module_dataset`
and `generate_member_dataset` each return a `RawDataset` without raising.
In fact every one of them raises a pydantic validation error on every
input: each ends in `Dataset(retrieval_chunks=..., tuning_pairs=...)`, and
`tuning_pairs` names no field of the `Dataset` model, whose required field
`tuning_documents` is then missing.  This theorem evaluates the code: all
three generators return the validation error for all inputs. -/
theorem C2_generators_always_raise :
    (∀ (package_contents : PackageDetails) (s : RandomState),
      (generate_package_dataset package_contents s).1 = .error .validationError)
    ∧ (∀ (module_contents : ModuleDetails) (s : RandomState),
      (generate_module_dataset module_contents s).1 = .error .validationError)
    ∧ (∀ (member_details : MemberDetails) (s : RandomState),
      (generate_member_dataset member_details s).1 = .error .validationError) :=
  ⟨generate_package_dataset_raises, generate_module_dataset_raises,
    generate_member_dataset_raises⟩

/-- The flat lists `generate_json_dataset` builds, in closed form. -/
theorem generate_json_dataset_eq (raw_datasets : List Dataset) :
    generate_json_dataset raw_datasets =
      { retrieval_documents := (raw_datasets.map (fun d => d.retrieval_chunks)).flatten
      , tuning_documents := (raw_datasets.map (fun d =>
          d.tuning_documents.map document_model_dump_validate)).flatten } := by
  suffices h : ∀ (ds : List Dataset) (a1 : List String) (a2 : List JSONDocument),
      ds.foldl (fun acc dataset =>
        (acc.1 ++ dataset.retrieval_chunks,
          acc.2 ++ dataset.tuning_documents.map (fun document =>
            document_model_dump_validate document))) (a1, a2)
        = (a1 ++ (ds.map (fun d => d.retrieval_chunks)).flatten,
          a2 ++ (ds.map (fun d => d.tuning_documents.map document_model_dump_validate)).flatten) by
    simp [generate_json_dataset, h raw_datasets [] []]
  intro ds
  induction ds with
  | nil => simp
  | cons d rest ih => intro a1 a2; simp [ih, List.append_assoc]

/-- C1: the claim says every tuning document placed into the serialized
`JSONDataset` has as context the space-separated join of its originating
record's retrieval chunks.  The code computes no such join anywhere:
`generate_json_dataset` copies each raw document's `context` verbatim
(first conjunct; at the concrete input a dataset with chunks `A`, `B` whose
document carries context `X`, the serialized context is still `X`, not
`A B`), and the generators raise before producing any tuning document at
all (third conjunct), so no document with the claimed context ever
exists. -/
theorem C1_context_never_joined :
    (∀ (raw_datasets : List Dataset),
      (generate_json_dataset raw_datasets).tuning_documents.map (fun d => d.context)
        = (raw_datasets.map (fun d =>
          d.tuning_documents.map (fun document => document.context))).flatten)
    ∧ ((generate_json_dataset
        [{ retrieval_chunks := ["A", "B"]
         , tuning_documents := [{ context := "X", question := "q", answer := "a"
                                , split := .TRAIN }] }]).tuning_documents
        = [{ context := "X", question := "q", answer := "a", split := .TRAIN }]
        ∧ "X" ≠ "A B")
    ∧ (∀ (package_contents : PackageDetails) (s : RandomState),
      (generate_package_dataset package_contents s).1 = .error .validationError) := by
  refine ⟨fun raw_datasets => ?_, ⟨rfl, by decide⟩, generate_package_dataset_raises⟩
  simp only [generate_json_dataset_eq, List.map_flatten, List.map_map]
  refine congrArg List.flatten (List.map_congr_left fun d _ => ?_)
  simp [document_model_dump_validate, Function.comp]

/-! ## Walk failure semantics (C3) -/

/-- An import environment where the root package `rootpkg` resolves and
imports fine and exposes one sub-package `rootpkg.sub`, but `find_spec` on
that sub-package returns no spec (as the real `importlib.util.find_spec`
does when the name is not found under the parent's search path). -/
def env_sub_spec_missing : ImportEnv :=
  { find_spec := fun name => if name == "rootpkg" then .found else .missing
  , import_module := fun name =>
      if name == "rootpkg" then
        some { walk := [("rootpkg.sub", true)], summary := none, all_exports := none }
      else none }

/-- C3 counterexample: the claim says an unresolvable sub-package is always
skipped and never aborts the walk.  In `env_sub_spec_missing` the
sub-package `rootpkg.sub` cannot be resolved (`find_spec` finds no spec),
`import_package` raises `ValueError` — which the loop's `except
ImportError` does not catch — and the whole walk aborts with that error. -/
theorem C3_counterexample :
    get_all_package_contents env_sub_spec_missing 3 "rootpkg"
      = some (.error (.valueError "rootpkg.sub")) := rfl

/-- C3 as amended: the walk's failure semantics do not distinguish root
from sub-package; they distinguish the kind of resolution failure.  A
popped package whose `find_spec` raises `ImportError`, or whose import
raises `ImportError`, is skipped and the loop continues with the remaining
stack; a popped package whose spec is simply not found — the root with a
completely invalid name, but equally any sub-package — raises the
package-not-found `ValueError`, fatal to the whole walk. -/
theorem C3_failure_semantics :
    (∀ (env : ImportEnv) (package_name : String) (fuel : Nat),
      env.find_spec package_name = .missing →
      get_all_package_contents env (fuel + 1) package_name
        = some (.error (.valueError package_name)))
    ∧ (∀ (env : ImportEnv) (fuel : Nat) (current : String) (parent : Option String)
        (rest : List (String × Option String)) (acc : List PackageDetails),
      env.find_spec current = .raisesImportError →
      walk_loop env (fuel + 1) ((current, parent) :: rest) acc
        = walk_loop env fuel rest acc)
    ∧ (∀ (env : ImportEnv) (fuel : Nat) (current : String) (parent : Option String)
        (rest : List (String × Option String)) (acc : List PackageDetails),
      env.find_spec current = .found → env.import_module current = none →
      walk_loop env (fuel + 1) ((current, parent) :: rest) acc
        = walk_loop env fuel rest acc)
    ∧ (∀ (env : ImportEnv) (fuel : Nat) (current : String) (parent : Option String)
        (rest : List (String × Option String)) (acc : List PackageDetails),
      env.find_spec current = .missing →
      walk_loop env (fuel + 1) ((current, parent) :: rest) acc
        = some (.error (.valueError current))) := by
  refine ⟨fun env package_name fuel h => ?_, fun env fuel current parent rest acc h => ?_,
    fun env fuel current parent rest acc h h2 => ?_,
    fun env fuel current parent rest acc h => ?_⟩
  · simp [get_all_package_contents, walk_loop, import_package, h]
  · simp [walk_loop, import_package, h]
  · simp [walk_loop, import_package, h, h2]
  · simp [walk_loop, import_package, h]

/-- An environment where every spec lookup says "no spec". -/
def env_all_missing : ImportEnv :=
  { find_spec := fun _ => .missing, import_module := fun _ => none }

/-- An environment where every spec lookup raises `ImportError`. -/
def env_all_import_error : ImportEnv :=
  { find_spec := fun _ => .raisesImportError, import_module := fun _ => none }

/-- An environment where specs resolve but every import raises
`ImportError`. -/
def env_found_no_module : ImportEnv :=
  { find_spec := fun _ => .found, import_module := fun _ => none }

/-- C3 witness: `C3_failure_semantics` applied at concrete environments,
discharging each hypothesis. -/
theorem C3_witness :
    (env_all_missing.find_spec "badpkg" = .missing
      ∧ get_all_package_contents env_all_missing 1 "badpkg"
        = some (.error (.valueError "badpkg")))
    ∧ (env_all_import_error.find_spec "pkg" = .raisesImportError
      ∧ walk_loop env_all_import_error 1 [("pkg", none)] []
        = walk_loop env_all_import_error 0 [] [])
    ∧ (env_found_no_module.find_spec "pkg" = .found
      ∧ env_found_no_module.import_module "pkg" = none
      ∧ walk_loop env_found_no_module 1 [("pkg", none)] []
        = walk_loop env_found_no_module 0 [] [])
    ∧ (env_all_missing.find_spec "pkg.sub" = .missing
      ∧ walk_loop env_all_missing 1 [("pkg.sub", some "pkg")] []
        = some (.error (.valueError "pkg.sub"))) :=
  ⟨⟨rfl, C3_failure_semantics.1 env_all_missing "badpkg" 0 rfl⟩,
    ⟨rfl, C3_failure_semantics.2.1 env_all_import_error 0 "pkg" none [] [] rfl⟩,
    ⟨rfl, rfl, C3_failure_semantics.2.2.1 env_found_no_module 0 "pkg" none [] [] rfl rfl⟩,
    ⟨rfl, C3_failure_semantics.2.2.2 env_all_missing 0 "pkg.sub" (some "pkg") [] [] rfl⟩⟩

/-! ## Root-package invariant (C4) -/

/-- The qualified names of a list of package records. -/
def qualified_names (l : List PackageDetails) : List String :=
  l.map (fun r => r.package_qualified_name)

/-- How many records of the list have no parent (the claimed "roots"). -/
def root_record_count (l : List PackageDetails) : Nat :=
  (l.filter (fun r => r.parent_package_name.isNone)).length

/-- Every record's parent, when present, is the qualified name of a record
of the same list. -/
def ParentsIn (l : List PackageDetails) : Prop :=
  ∀ r ∈ l, ∀ p, r.parent_package_name = some p → p ∈ qualified_names l

theorem build_package_details_qual (c : String) (p : Option String) (rt : PackageRuntime) :
    (build_package_details c p rt).1.package_qualified_name = c := rfl

theorem build_package_details_parent (c : String) (p : Option String) (rt : PackageRuntime) :
    (build_package_details c p rt).1.parent_package_name = p := rfl

theorem walk_loop_nil (env : ImportEnv) (fuel : Nat) (acc : List PackageDetails) :
    walk_loop env fuel [] acc = some (.ok acc) := by
  cases fuel <;> rfl

theorem qualified_names_append (l1 l2 : List PackageDetails) :
    qualified_names (l1 ++ l2) = qualified_names l1 ++ qualified_names l2 := by
  simp [qualified_names]

/-- Loop invariant of the package walk: once every stack entry carries a
parent, and every such parent is already a qualified name of the
accumulator, a successful walk neither adds nor removes parentless records
and preserves parent resolution. -/
theorem walk_loop_inv (env : ImportEnv) :
    ∀ (fuel : Nat) (stack : List (String × Option String)) (acc l : List PackageDetails),
      walk_loop env fuel stack acc = some (.ok l) →
      (∀ e ∈ stack, e.2 ≠ none) →
      (∀ e ∈ stack, ∀ p, e.2 = some p → p ∈ qualified_names acc) →
      root_record_count l = root_record_count acc ∧ (ParentsIn acc → ParentsIn l) := by
  intro fuel
  induction fuel with
  | zero =>
    intro stack acc l h h1 h2
    cases stack with
    | nil =>
      rw [walk_loop_nil] at h
      cases h
      exact ⟨rfl, id⟩
    | cons e rest => simp [walk_loop] at h
  | succ fuel ih =>
    intro stack acc l h h1 h2
    cases stack with
    | nil =>
      rw [walk_loop_nil] at h
      cases h
      exact ⟨rfl, id⟩
    | cons e rest =>
      obtain ⟨current, parent⟩ := e
      rcases hfs : env.find_spec current with _ | _ | _ <;>
        simp only [walk_loop, import_package, hfs] at h
      · -- spec found: try the import
        rcases him : env.import_module current with _ | runtime <;> simp only [him] at h
        · exact ih rest acc l h (fun e he => h1 e (List.mem_cons_of_mem _ he))
            (fun e he => h2 e (List.mem_cons_of_mem _ he))
        · -- the package is processed, its record appended, its children pushed
          obtain ⟨p0, hp0⟩ : ∃ p0, parent = some p0 := by
            cases hpar : parent with
            | none => exact absurd (by simp [hpar]) (h1 (current, parent) (List.mem_cons_self _ _))
            | some p0 => exact ⟨p0, rfl⟩
          have hrec_parent := build_package_details_parent current parent runtime
          have hrec_qual := build_package_details_qual current parent runtime
          have hquals : qualified_names (acc ++ [(build_package_details current parent
              runtime).1]) = qualified_names acc ++ [current] := by
            simp [qualified_names_append, qualified_names, hrec_qual]
          have step := ih _ _ l h
            (fun e he => by
              rcases List.mem_append.mp he with hl | hr
              · obtain ⟨n, _, rfl⟩ := List.mem_map.mp hl
                simp
              · exact h1 e (List.mem_cons_of_mem _ hr))
            (fun e he p hp => by
              rw [hquals]
              rcases List.mem_append.mp he with hl | hr
              · obtain ⟨n, _, rfl⟩ := List.mem_map.mp hl
                cases hp
                exact List.mem_append.mpr (Or.inr (List.mem_singleton.mpr rfl))
              · exact List.mem_append.mpr
                  (Or.inl (h2 e (List.mem_cons_of_mem _ hr) p hp)))
          have hcount : root_record_count (acc ++ [(build_package_details current parent
              runtime).1]) = root_record_count acc := by
            simp [root_record_count, List.filter_append, build_package_details_parent, hp0]
          refine ⟨step.1.trans hcount, fun hPI => step.2 ?_⟩
          intro r hr p hp
          rw [hquals]
          rcases List.mem_append.mp hr with hl | hrr
          · exact List.mem_append.mpr (Or.inl (hPI r hl p hp))
          · have : r = (build_package_details current parent runtime).1 :=
              List.mem_singleton.mp hrr
            subst this
            rw [hrec_parent, hp0] at hp
            cases hp
            exact List.mem_append.mpr
              (Or.inl (h2 (current, parent) (List.mem_cons_self _ _) p0 hp0))
      · -- no spec: the ValueError aborts, contradicting the ok result
        cases h
      · -- ImportError: skipped
        exact ih rest acc l h (fun e he => h1 e (List.mem_cons_of_mem _ he))
          (fun e he => h2 e (List.mem_cons_of_mem _ he))

/-- C4 as amended: the claim holds only for non-empty results — a walk
whose root import raises `ImportError` is skipped like any other and the
function returns an empty list with no root record at all.  For every
non-empty returned list, exactly one record has no parent and every other
record's parent is the qualified name of a record of the list. -/
theorem C4_root_invariant (env : ImportEnv) (fuel : Nat) (package_name : String)
    (l : List PackageDetails) :
    get_all_package_contents env fuel package_name = some (.ok l) → l ≠ [] →
    root_record_count l = 1 ∧ ParentsIn l := by
  intro h hne
  cases fuel with
  | zero => simp [get_all_package_contents, walk_loop] at h
  | succ fuel =>
    rw [get_all_package_contents] at h
    rcases hfs : env.find_spec package_name with _ | _ | _ <;>
      simp only [walk_loop, import_package, hfs] at h
    · rcases him : env.import_module package_name with _ | runtime <;> simp only [him] at h
      · simp only [Option.some.injEq, Except.ok.injEq] at h
        exact absurd h.symm hne
      · have hrec_parent := build_package_details_parent package_name none runtime
        have hrec_qual := build_package_details_qual package_name none runtime
        simp only [List.append_nil, List.nil_append] at h
        have step := walk_loop_inv env fuel _ _ l h
          (fun e he => by
            obtain ⟨n, _, rfl⟩ := List.mem_map.mp he
            simp)
          (fun e he p hp => by
            obtain ⟨n, _, rfl⟩ := List.mem_map.mp he
            cases hp
            simp [qualified_names, hrec_qual])
        have hone : root_record_count [(build_package_details package_name none
            runtime).1] = 1 := by
          simp [root_record_count, List.filter, hrec_parent]
        refine ⟨step.1.trans hone, step.2 ?_⟩
        intro r hr p hp
        have : r = (build_package_details package_name none runtime).1 :=
          List.mem_singleton.mp hr
        subst this
        rw [hrec_parent] at hp
        cases hp
    · cases h
    · simp only [Option.some.injEq, Except.ok.injEq] at h
      exact absurd h.symm hne

/-- C4 counterexample: at the concrete root name `nonexistent.sub` — whose
spec lookup raises `ImportError` because the parent `nonexistent` cannot be
imported — the walk skips the root and returns the empty list, which has
zero parentless records, not exactly one. -/
theorem C4_counterexample :
    get_all_package_contents env_all_import_error 1 "nonexistent.sub" = some (.ok [])
    ∧ root_record_count [] ≠ 1 :=
  ⟨rfl, by decide⟩

/-- A benign environment: root package `demo` with one sub-package
`demo.sub`. -/
def env_demo : ImportEnv :=
  { find_spec := fun _ => .found
  , import_module := fun name =>
      if name == "demo" then
        some { walk := [("demo.sub", true)], summary := none, all_exports := none }
      else some { walk := [], summary := none, all_exports := none } }

/-- The two records the `env_demo` walk produces. -/
def demo_records : List PackageDetails := [
  { package_name := "demo", package_qualified_name := "demo"
  , package_hierarchy := ["demo"], parent_package_name := none
  , children_sub_packages_names := ["sub"], children_modules_names := []
  , package_summary := none, package_all_exports := none },
  { package_name := "sub", package_qualified_name := "demo.sub"
  , package_hierarchy := ["demo", "sub"], parent_package_name := some "demo"
  , children_sub_packages_names := [], children_modules_names := []
  , package_summary := none, package_all_exports := none }]

/-- C4 witness: `C4_root_invariant` applied to the concrete `env_demo`
walk, discharging both hypotheses. -/
theorem C4_witness :
    get_all_package_contents env_demo 3 "demo" = some (.ok demo_records)
    ∧ demo_records ≠ []
    ∧ root_record_count demo_records = 1 ∧ ParentsIn demo_records := by
  have h : get_all_package_contents env_demo 3 "demo" = some (.ok demo_records) := rfl
  have hne : demo_records ≠ [] := by simp [demo_records]
  exact ⟨h, hne, C4_root_invariant env_demo 3 "demo" demo_records h hne⟩

/-! ## Member locality (C5) -/

theorem get_append_singleton_last_general (l : List String) (x : String) :
    ∀ d, l ≠ [] → ((l ++ [x]).get? ((l ++ [x]).length - 2)).getD d = l.getLastD d := by
  induction l with
  | nil => exact fun d hl => absurd rfl hl
  | cons a t ih =>
    intro d _
    cases t with
    | nil => rfl
    | cons b t2 =>
      have hidx : ((a :: b :: t2) ++ [x]).length - 2 = t2.length + 1 := by simp
      have hidx2 : ((b :: t2) ++ [x]).length - 2 = t2.length := by simp
      have step := ih d (by simp)
      rw [hidx2, List.getLastD_cons] at step
      rw [hidx]
      simp only [List.cons_append, List.get?_cons_succ, List.getLastD_cons]
      exact step

theorem get_append_singleton_last (l : List String) (x : String) (hl : l ≠ []) :
    ((l ++ [x]).get? ((l ++ [x]).length - 2)).getD "" = l.getLastD "" :=
  get_append_singleton_last_general l x "" hl

/-- C5: member locality.  First conjunct: `get_all_module_contents` keeps
exactly the members whose defining module (`inspect.getmodule`) is the
imported module itself, so objects merely imported into the module never
appear.  Second conjunct: the member record built by
`get_all_member_details(module_name, ...)` reports as its owning module the
module's own (last-segment) name. -/
theorem C5_member_locality :
    (∀ (env : IntrospectEnv) (module_name : String) (d : ModuleDetails),
      get_all_module_contents env module_name = .ok d →
      ∀ mm ∈ d.module_members, env.getmodule mm.member_object = some module_name)
    ∧ (∀ (env : IntrospectEnv) (module_name member_name : String) (obj : Nat)
        (md : MemberDetails),
      get_all_member_details env module_name member_name obj = .ok md →
      md.member_module = (pySplit module_name).getLastD "") := by
  constructor
  · intro env module_name d h mm hmm
    rcases him : env.import_module module_name with _ | runtime
    · simp only [get_all_module_contents, him] at h
      cases h
    · simp only [get_all_module_contents, him] at h
      cases h
      simp only [List.mem_map] at hmm
      obtain ⟨member, hmem, rfl⟩ := hmm
      have h2 := List.of_mem_filter hmem
      exact beq_iff_eq.mp h2
  · intro env module_name member_name obj md h
    have hlast := get_append_singleton_last (pySplit module_name) member_name
      (pySplit_ne_nil module_name)
    rcases hcl : env.classify obj with _ | _ | _ | _ <;>
      simp only [get_all_member_details, hcl] at h
    · cases h
      exact hlast
    · rcases hsig : env.signature obj with _ | signature <;> simp only [hsig] at h
      · cases h
      · cases h
        exact hlast
    · rcases hsig : env.signature obj with _ | signature <;> simp only [hsig] at h
      · cases h
      · cases h
        exact hlast
    · cases h
      exact hlast

/-- A concrete introspection environment: module `demo.util` holds an
object `greet` (handle 1) defined in it and an object `os` (handle 2)
defined elsewhere and merely imported. -/
def env_module_demo : IntrospectEnv :=
  { import_module := fun name =>
      if name == "demo.util" then
        some { members := [("greet", 1), ("os", 2)], getdoc := none, all_exports := none }
      else none
  , getmodule := fun obj => if obj == 1 then some "demo.util" else some "os"
  , getdoc := fun _ => none
  , parse := fun _ =>
      { Parameters := [], Returns := [], Raises := [], Warns := [], Summary := []
      , Extended_Summary := [], See_Also := [], Notes := [], References := []
      , Examples := [] }
  , classify := fun _ => .other
  , enum_members := fun _ => []
  , signature := fun _ => none
  , methods := fun _ => []
  , attributes := fun _ => [] }

/-- What `get_all_module_contents` returns in `env_module_demo`: only the
locally defined `greet` survives the filter. -/
def demo_util_details : ModuleDetails :=
  { module_name := "util", module_qualified_name := "demo.util"
  , module_hierarchy := ["demo", "util"], package_name := "demo"
  , module_members := [{ member_name := "greet", member_object := 1 }]
  , module_summary := none, module_all_exports := none }

/-- What `get_all_member_details` returns for `greet` in `env_module_demo`. -/
def greet_member_details : MemberDetails :=
  { member_name := "greet", member_qualified_name := "demo.util.greet"
  , member_hierarchy := ["demo", "util", "greet"], member_module := "util"
  , member_docstring := "", member_type_details := none }

/-- C5 witness: `C5_member_locality` applied at the concrete
`env_module_demo`, discharging each hypothesis. -/
theorem C5_witness :
    (get_all_module_contents env_module_demo "demo.util" = .ok demo_util_details
      ∧ ∀ mm ∈ demo_util_details.module_members,
        env_module_demo.getmodule mm.member_object = some "demo.util")
    ∧ (get_all_member_details env_module_demo "demo.util" "greet" 1
        = .ok greet_member_details
      ∧ greet_member_details.member_module = (pySplit "demo.util").getLastD "") :=
  ⟨⟨rfl, C5_member_locality.1 env_module_demo "demo.util" demo_util_details rfl⟩,
    ⟨rfl, C5_member_locality.2 env_module_demo "demo.util" "greet" 1
      greet_member_details rfl⟩⟩

/-! ## Split-allocation determinism (C6) -/

/-- C6: `allocate_tuning_pairs` draws from the explicit random-stream state
(the global stream seeded once with `random.seed(a=0)` at module import),
so two runs from the same stream state over the same input order produce
identical split labels; moreover the allocation preserves each
question/answer pair in its input position, so the labels attach to the
same pairs in both runs. -/
theorem C6_allocation_deterministic (s₁ s₂ : RandomState)
    (pairs₁ pairs₂ : List (String × String)) (p : SplitProportions) :
    s₁ = s₂ → pairs₁ = pairs₂ →
    allocate_tuning_pairs pairs₁ p s₁ = allocate_tuning_pairs pairs₂ p s₂
    ∧ (allocate_tuning_pairs pairs₁ p s₁).1.map (fun t => (t.1, t.2.1)) = pairs₁ := by
  intro hs hp
  subst hs
  subst hp
  refine ⟨rfl, ?_⟩
  show ((pairs₁.zip ((List.range pairs₁.length).map (fun i =>
    weighted_split_choice p (s₁.stream (s₁.pos + i))))).map
      (fun qa => (qa.1.1, qa.1.2, qa.2))).map (fun t => (t.1, t.2.1)) = pairs₁
  rw [List.map_map]
  exact List.map_fst_zip _ _ (by simp)

/-- C6 witness: `C6_allocation_deterministic` at a concrete stream state
and pair list, discharging both hypotheses. -/
theorem C6_witness :
    ((⟨0, fun _ => 0⟩ : RandomState) = ⟨0, fun _ => 0⟩)
    ∧ ([("q", "a")] : List (String × String)) = [("q", "a")]
    ∧ allocate_tuning_pairs [("q", "a")] DEFAULT_SPLIT_PROPORTIONS ⟨0, fun _ => 0⟩
        = allocate_tuning_pairs [("q", "a")] DEFAULT_SPLIT_PROPORTIONS ⟨0, fun _ => 0⟩
    ∧ (allocate_tuning_pairs [("q", "a")] DEFAULT_SPLIT_PROPORTIONS
        ⟨0, fun _ => 0⟩).1.map (fun t => (t.1, t.2.1)) = [("q", "a")] :=
  ⟨rfl, rfl,
    (C6_allocation_deterministic ⟨0, fun _ => 0⟩ ⟨0, fun _ => 0⟩ [("q", "a")] [("q", "a")]
      DEFAULT_SPLIT_PROPORTIONS rfl rfl).1,
    (C6_allocation_deterministic ⟨0, fun _ => 0⟩ ⟨0, fun _ => 0⟩ [("q", "a")] [("q", "a")]
      DEFAULT_SPLIT_PROPORTIONS rfl rfl).2⟩

/-! ## Member-type dataset truncation (C7) -/

theorem class_parameters_block_pfx (cm : String) (dtl : ClassDetails)
    (acc : List String × List TuningTriplet × RandomState) :
    acc.1 <+: (class_parameters_block cm dtl acc).1 := by
  unfold class_parameters_block
  dsimp only
  split <;> simp [List.append_assoc]

theorem class_methods_block_pfx (cm : String) (dtl : ClassDetails)
    (acc : List String × List TuningTriplet × RandomState) :
    acc.1 <+: (class_methods_block cm dtl acc).1 := by
  unfold class_methods_block
  dsimp only
  split <;> simp [List.append_assoc]

theorem class_attributes_block_pfx (cm : String) (dtl : ClassDetails)
    (acc : List String × List TuningTriplet × RandomState) :
    acc.1 <+: (class_attributes_block cm dtl acc).1 := by
  unfold class_attributes_block
  dsimp only
  split <;> simp [List.append_assoc]

theorem class_summary_block_pfx (cm : String) (dtl : ClassDetails)
    (acc : List String × List TuningTriplet × RandomState) :
    acc.1 <+: (class_summary_block cm dtl acc).1 := by
  unfold class_summary_block
  dsimp only
  split <;> simp [List.append_assoc]

theorem class_notes_block_pfx (cm : String) (dtl : ClassDetails)
    (acc : List String × List TuningTriplet × RandomState) :
    acc.1 <+: (class_notes_block cm dtl acc).1 := by
  unfold class_notes_block
  dsimp only
  split <;> simp [List.append_assoc]

theorem class_parameter_step_pfx (cm : String)
    (acc : List String × List TuningTriplet × RandomState) (p : ParameterDetails) :
    acc.1 <+: (class_parameter_step cm acc p).1 := by
  unfold class_parameter_step
  dsimp only
  split <;> dsimp only <;> split <;> dsimp only <;> split <;>
    simp [List.append_assoc]

theorem class_method_step_pfx (cm : String)
    (acc : List String × List TuningTriplet × RandomState) (m : MethodDetails) :
    acc.1 <+: (class_method_step cm acc m).1 := by
  unfold class_method_step
  dsimp only
  split <;> dsimp only <;> split <;> simp [List.append_assoc]

theorem function_parameter_step_pfx (fm : String)
    (acc : List String × List TuningTriplet × RandomState) (p : ParameterDetails) :
    acc.1 <+: (function_parameter_step fm acc p).1 := by
  unfold function_parameter_step
  dsimp only
  split <;> dsimp only <;> split <;> dsimp only <;> split <;>
    simp [List.append_assoc]

theorem function_parameters_block_pfx (fm : String) (dtl : FunctionDetails)
    (acc : List String × List TuningTriplet × RandomState) :
    acc.1 <+: (function_parameters_block fm dtl acc).1 := by
  unfold function_parameters_block
  dsimp only
  split <;> simp [List.append_assoc]

theorem function_return_type_block_pfx (fm : String) (dtl : FunctionDetails)
    (acc : List String × List TuningTriplet × RandomState) :
    acc.1 <+: (function_return_type_block fm dtl acc).1 := by
  unfold function_return_type_block
  dsimp only
  split <;> simp [List.append_assoc]

theorem function_return_summary_block_pfx (fm : String) (dtl : FunctionDetails)
    (acc : List String × List TuningTriplet × RandomState) :
    acc.1 <+: (function_return_summary_block fm dtl acc).1 := by
  unfold function_return_summary_block
  dsimp only
  split <;> simp [List.append_assoc]

theorem function_summary_block_pfx (fm : String) (dtl : FunctionDetails)
    (acc : List String × List TuningTriplet × RandomState) :
    acc.1 <+: (function_summary_block fm dtl acc).1 := by
  unfold function_summary_block
  dsimp only
  split <;> simp [List.append_assoc]

theorem function_raises_block_pfx (fm : String) (dtl : FunctionDetails)
    (acc : List String × List TuningTriplet × RandomState) :
    acc.1 <+: (function_raises_block fm dtl acc).1 := by
  unfold function_raises_block
  dsimp only
  split <;> simp [List.append_assoc]

theorem function_warns_block_pfx (fm : String) (dtl : FunctionDetails)
    (acc : List String × List TuningTriplet × RandomState) :
    acc.1 <+: (function_warns_block fm dtl acc).1 := by
  unfold function_warns_block
  dsimp only
  split <;> simp [List.append_assoc]

theorem function_notes_block_pfx (fm : String) (dtl : FunctionDetails)
    (acc : List String × List TuningTriplet × RandomState) :
    acc.1 <+: (function_notes_block fm dtl acc).1 := by
  unfold function_notes_block
  dsimp only
  split <;> simp [List.append_assoc]

theorem function_references_block_pfx (fm : String) (dtl : FunctionDetails)
    (acc : List String × List TuningTriplet × RandomState) :
    acc.1 <+: (function_references_block fm dtl acc).1 := by
  unfold function_references_block
  dsimp only
  split <;> simp [List.append_assoc]

theorem function_examples_block_pfx (fm : String) (dtl : FunctionDetails)
    (acc : List String × List TuningTriplet × RandomState) :
    acc.1 <+: (function_examples_block fm dtl acc).1 := by
  unfold function_examples_block
  dsimp only
  split <;> simp [List.append_assoc]

theorem foldl_chunks_pfx {α : Type}
    (step : (List String × List TuningTriplet × RandomState) → α →
      (List String × List TuningTriplet × RandomState))
    (hstep : ∀ acc x, acc.1 <+: (step acc x).1) :
    ∀ (l : List α) (acc : List String × List TuningTriplet × RandomState),
      acc.1 <+: (l.foldl step acc).1 := by
  intro l
  induction l with
  | nil => intro acc; exact List.prefix_refl _
  | cons x t ih => intro acc; exact (hstep acc x).trans (ih (step acc x))

theorem take_two_of_pfx {a b : String} {l : List String} (h : [a, b] <+: l) :
    l.take 2 = [a, b] := by
  obtain ⟨t, ht⟩ := h
  rw [← ht]
  rfl

theorem generate_class_member_core_take_two (cm doc : String) (dtl : ClassDetails)
    (s0 : RandomState) :
    (generate_class_member_core cm doc dtl s0).1.take 2
      = [s!"{cm} is a Python class.", s!"{cm} has following docstring: {doc}."] := by
  refine take_two_of_pfx ?_
  show (([s!"{cm} is a Python class.", s!"{cm} has following docstring: {doc}."],
    ([] : List TuningTriplet), s0) : List String × List TuningTriplet × RandomState).1
    <+: (generate_class_member_core cm doc dtl s0).1
  exact ((((((class_parameters_block_pfx cm dtl _).trans
    (foldl_chunks_pfx _ (class_parameter_step_pfx cm) dtl.class_parameters _)).trans
    (class_methods_block_pfx cm dtl _)).trans
    (foldl_chunks_pfx _ (class_method_step_pfx cm) dtl.class_methods _)).trans
    (class_attributes_block_pfx cm dtl _)).trans
    (class_summary_block_pfx cm dtl _)).trans
    (class_notes_block_pfx cm dtl _)

theorem generate_function_member_core_take_two (fm doc : String) (dtl : FunctionDetails)
    (s0 : RandomState) :
    (generate_function_member_core fm doc dtl s0).1.take 2
      = [s!"{fm} is a Python function.", s!"{fm} has following docstring: {doc}."] := by
  refine take_two_of_pfx ?_
  show (([s!"{fm} is a Python function.", s!"{fm} has following docstring: {doc}."],
    ([] : List TuningTriplet), s0) : List String × List TuningTriplet × RandomState).1
    <+: (generate_function_member_core fm doc dtl s0).1
  exact (((((((((function_parameters_block_pfx fm dtl _).trans
    (foldl_chunks_pfx _ (function_parameter_step_pfx fm)
      dtl.function_parameters _)).trans
    (function_return_type_block_pfx fm dtl _)).trans
    (function_return_summary_block_pfx fm dtl _)).trans
    (function_summary_block_pfx fm dtl _)).trans
    (function_raises_block_pfx fm dtl _)).trans
    (function_warns_block_pfx fm dtl _)).trans
    (function_notes_block_pfx fm dtl _)).trans
    (function_references_block_pfx fm dtl _)).trans
    (function_examples_block_pfx fm dtl _)

set_option maxHeartbeats 1000000 in
/-- The enum member-type chunk list, in closed form: all six chunks. -/
theorem generate_enum_member_core_chunks (em doc : String) (dtl : EnumDetails)
    (s : RandomState) :
    (generate_enum_member_core em doc dtl s).1
      = (let n := dtl.enum_members.length
         let members := format_enumeration (dtl.enum_members.map (fun e => e.enum_member))
         let names := format_enumeration
           (dtl.enum_members.map (fun e => e.enum_member_name))
         let values := format_enumeration
           (dtl.enum_members.map (fun e => pyStr e.enum_member_value))
         [s!"{em} is a Python enum.",
          s!"{em} has {n} many members.",
          s!"Members of {em} are as follows: {members}.",
          s!"Names of different members of {em} are as follows: {names}.",
          s!"Values of different members of {em} are as follows: {values}.",
          s!"{em} has following docstring: {doc}."]) := rfl

/-- C7 as amended: for every classified member `generate_member_dataset`
does not return two datasets — it raises the `Dataset` validation error
(first conjunct).  The member-type retrieval chunks it computes before
failing are truncated to the 2-chunk summary (kind declaration plus
docstring echo) for class and function members only (third and fourth
conjuncts); for an enum member the full six-chunk list — kind declaration,
member count, member listing, name listing, value listing, docstring
echo — is used untruncated (second conjunct). -/
theorem C7_member_type_datasets :
    (∀ (md : MemberDetails) (dtl : MemberTypeDetails) (s : RandomState),
      md.member_type_details = some dtl →
      (generate_member_dataset md s).1 = .error .validationError)
    ∧ (∀ (em doc : String) (dtl : EnumDetails) (s : RandomState),
      (generate_enum_member_core em doc dtl s).1
        = (let n := dtl.enum_members.length
           let members := format_enumeration (dtl.enum_members.map (fun e => e.enum_member))
           let names := format_enumeration
             (dtl.enum_members.map (fun e => e.enum_member_name))
           let values := format_enumeration
             (dtl.enum_members.map (fun e => pyStr e.enum_member_value))
           [s!"{em} is a Python enum.",
            s!"{em} has {n} many members.",
            s!"Members of {em} are as follows: {members}.",
            s!"Names of different members of {em} are as follows: {names}.",
            s!"Values of different members of {em} are as follows: {values}.",
            s!"{em} has following docstring: {doc}."]))
    ∧ (∀ (cm doc : String) (dtl : ClassDetails) (s : RandomState),
      (generate_class_member_core cm doc dtl s).1.take 2
        = [s!"{cm} is a Python class.", s!"{cm} has following docstring: {doc}."])
    ∧ (∀ (fm doc : String) (dtl : FunctionDetails) (s : RandomState),
      (generate_function_member_core fm doc dtl s).1.take 2
        = [s!"{fm} is a Python function.", s!"{fm} has following docstring: {doc}."]) :=
  ⟨fun md _ s _ => generate_member_dataset_raises md s,
    generate_enum_member_core_chunks,
    generate_class_member_core_take_two, generate_function_member_core_take_two⟩

/-- A concrete classified member: the enum `Color` with one member. -/
def enum_member_example : MemberDetails :=
  { member_name := "Color", member_qualified_name := "m.Color"
  , member_hierarchy := ["m", "Color"], member_module := "m"
  , member_docstring := "Enum of colors."
  , member_type_details := some (.enumD
      { enum_members := [{ enum_member_name := "RED", enum_member_value := .int 1 }] }) }

/-- C7 counterexample: at the concrete classified member `Color` (an
enum), `generate_member_dataset` returns no datasets at all — it raises
the validation error — and the member-type chunk list the enum generator
computes for it holds six chunks, not the claimed truncated two. -/
theorem C7_counterexample :
    (generate_member_dataset enum_member_example ⟨0, fun _ => 0⟩).1
      = .error .validationError
    ∧ (generate_enum_member_core "'Color' enum" "Enum of colors."
        { enum_members := [{ enum_member_name := "RED", enum_member_value := .int 1 }] }
        ⟨0, fun _ => 0⟩).1.length = 6 :=
  ⟨rfl, rfl⟩

/-- A concrete classified member: a class with no parameters, methods or
attributes. -/
def class_member_example : MemberDetails :=
  { member_name := "Widget", member_qualified_name := "m.Widget"
  , member_hierarchy := ["m", "Widget"], member_module := "m"
  , member_docstring := "A demo class."
  , member_type_details := some (.classD
      { class_parameters := [], class_methods := [], class_attributes := []
      , class_summary := some "A demo class.", class_notes := none }) }

/-- C7 witness: `C7_member_type_datasets` applied at the concrete
classified member `Widget`, discharging its hypothesis. -/
theorem C7_witness :
    class_member_example.member_type_details
      = some (.classD
        { class_parameters := [], class_methods := [], class_attributes := []
        , class_summary := some "A demo class.", class_notes := none })
    ∧ (generate_member_dataset class_member_example ⟨0, fun _ => 0⟩).1
      = .error .validationError :=
  ⟨rfl, C7_member_type_datasets.1 class_member_example
    (.classD
      { class_parameters := [], class_methods := [], class_attributes := []
      , class_summary := some "A demo class.", class_notes := none })
    ⟨0, fun _ => 0⟩ rfl⟩

/-! ## C8: JSON store/load round trip -/

theorem parse_json_document_model_dump (d : JSONDocument) :
    parse_json_document (JSONDocument.model_dump d) = .ok d := by
  cases d with
  | mk c q a sp => cases sp <;> rfl

theorem mapM_parse_json_string (l : List String) :
    (l.map JValue.str).mapM parse_json_string = Except.ok l := by
  induction l with
  | nil => rfl
  | cons x xs ih =>
    simp only [List.map_cons, List.mapM_cons, ih, parse_json_string]
    rfl

theorem mapM_parse_json_document (l : List JSONDocument) :
    (l.map JSONDocument.model_dump).mapM parse_json_document = Except.ok l := by
  induction l with
  | nil => rfl
  | cons x xs ih =>
    simp only [List.map_cons, List.mapM_cons, ih, parse_json_document_model_dump]
    rfl

theorem load_store_reduce (rd : List String) (td : List JSONDocument) :
    load_json_dataset (store_json_dataset ⟨rd, td⟩)
      = ((rd.map JValue.str).mapM parse_json_string >>= fun retrieval_documents =>
         (td.map JSONDocument.model_dump).mapM parse_json_document >>=
           fun tuning_documents =>
          Except.ok ⟨retrieval_documents, tuning_documents⟩) := rfl

/-- C8: for every in-memory `JSONDataset`, storing it with
`store_json_dataset` and loading the stored value back with
`load_json_dataset` (both at the level of the JSON value written to and
read from the file, `json.dump`/`json.load` being inverse on such values)
validates successfully and returns a dataset equal to the original. -/
theorem C8_json_round_trip (json_dataset : JSONDataset) :
    load_json_dataset (store_json_dataset json_dataset) = .ok json_dataset := by
  cases json_dataset with
  | mk rd td =>
    rw [load_store_reduce]
    simp only [mapM_parse_json_string, mapM_parse_json_document]
    rfl

/-! ## C9: numbered-listing format -/

/-- C9: `enumerate_array_elements` on a list of string elements (with no
attribute) succeeds and renders the 1-based space-joined numbered listing
`format_enumeration`; at `["a", "b", "c"]` it returns `"1. a 2. b 3. c"`,
and at the empty list it returns `""`. -/
theorem C9_enumeration_format :
    (∀ (array : List String),
      enumerate_array_elements (array.map ArrayElement.str) none
        = .ok (format_enumeration array))
    ∧ enumerate_array_elements (["a", "b", "c"].map ArrayElement.str) none
        = .ok "1. a 2. b 3. c"
    ∧ enumerate_array_elements ([] : List ArrayElement) none = .ok "" :=
  ⟨fun array => enumerate_array_elements_strs none array, rfl, rfl⟩

/-! ## C10: truthiness-based annotation merging -/

/-- C10: the parameter/return annotation merge uses a truthiness-based
`or`, so a docstring type equal to the empty string behaves exactly like
a missing docstring entry: `merged_annot` then falls back to the live
signature annotation, both for every parameter produced by
`get_all_parameters_details` and for the return produced by
`get_all_returns_details`, while a non-empty docstring type wins. -/
theorem C10_truthiness_fallback :
    (∀ (entry : DocParameter) (signature_annot : PyValue),
      entry.type = "" →
        merged_annot (some entry) signature_annot
          = merged_annot none signature_annot
        ∧ merged_annot (some entry) signature_annot = signature_annot)
    ∧ (∀ (entry : DocParameter) (signature_annot : PyValue),
      entry.type ≠ "" →
        merged_annot (some entry) signature_annot = .str entry.type)
    ∧ (∀ (signature : Signature) (docstring : ParsedDoc) (i : Nat)
        (parameter : SigParameter),
      signature.parameters.get? i = some parameter →
      (∀ entry, docLookup docstring.Parameters parameter.name = some entry →
        entry.type = "") →
      ∃ d, (get_all_parameters_details signature docstring).get? i = some d
        ∧ d.parameter_name = parameter.name
        ∧ d.parameter_annot = parameter.annot)
    ∧ (∀ (signature : Signature) (docstring : ParsedDoc),
      docstring.Returns = [] →
        (get_all_returns_details signature docstring).returns_annot
          = signature.return_annot)
    ∧ (∀ (signature : Signature) (docstring : ParsedDoc)
        (r : DocParameter) (rest : List DocParameter),
      docstring.Returns = r :: rest → r.type = "" →
        (get_all_returns_details signature docstring).returns_annot
          = signature.return_annot) := by
  refine ⟨?_, ?_, ?_, ?_, ?_⟩
  · intro entry signature_annot h
    constructor <;> simp [merged_annot, h]
  · intro entry signature_annot h
    simp [merged_annot, h]
  · intro signature docstring i parameter hget hdoc
    refine ⟨{ parameter_name := parameter.name
            , parameter_default := parameter.default
            , parameter_annot :=
                merged_annot (docLookup docstring.Parameters parameter.name)
                  parameter.annot
            , parameter_kind := parameter.kind
            , parameter_summary :=
                (docLookup docstring.Parameters parameter.name).map
                  (fun entry => String.intercalate " " entry.desc) },
      ?_, rfl, ?_⟩
    · simp only [get_all_parameters_details, List.get?_map, hget]
      rfl
    · show merged_annot (docLookup docstring.Parameters parameter.name)
        parameter.annot = parameter.annot
      cases hd : docLookup docstring.Parameters parameter.name with
      | none => rfl
      | some entry => simp [merged_annot, hdoc entry hd]
  · intro signature docstring h
    simp [get_all_returns_details, h]
  · intro signature docstring r rest h ht
    simp [get_all_returns_details, h, merged_annot, ht]

end QPD
